import Mathlib

/-!
Verification development for the StockSense investment-tracking application.

The backend request handlers (`backend/index.js`), the Sequelize model
declarations (`backend/models/user.js`, `backend/models/portfolio.js`) and the
frontend news service (`project/src/services/newsService.ts`) are embedded as
pure Lean functions.  External collaborators are abstracted as explicit
parameters: `bcrypt.compare`/`bcrypt.hash` as function parameters, `Math.random`
as rational arguments, `Date.now()` and date values as epoch milliseconds
(`Int`), HTTP fetches as oracles (`FetchOutcome`), and the database tables as
lists of rows threaded through the handlers.
-/

set_option maxHeartbeats 1000000

/-! ## JavaScript string primitives used by the code -/

/-- ASCII uppercase of one character; models the effect of JS
`String.prototype.toUpperCase` on the characters this application handles. -/
def upChar (c : Char) : Char :=
  if 97 ≤ c.toNat && c.toNat ≤ 122 then Char.ofNat (c.toNat - 32) else c

/-- ASCII lowercase of one character (JS `String.prototype.toLowerCase`). -/
def downChar (c : Char) : Char :=
  if 65 ≤ c.toNat && c.toNat ≤ 90 then Char.ofNat (c.toNat + 32) else c

/-- Model of JS `s.toUpperCase()`. -/
def toUpperJS (s : String) : String := ⟨s.data.map upChar⟩

/-- Model of JS `s.toLowerCase()`. -/
def toLowerJS (s : String) : String := ⟨s.data.map downChar⟩

/-- Model of `symbol.charAt(0).toUpperCase() + symbol.slice(1).toLowerCase()`. -/
def capitalizeJS (s : String) : String :=
  match s.data with
  | [] => ""
  | c :: rest => ⟨upChar c :: rest.map downChar⟩

/-- Model of JS `s.includes(pat)`: substring containment. -/
def strIncludes (s pat : String) : Bool := decide (pat.data <:+: s.data)

/-- Truthiness of an optional string field of a JSON request body: an absent
field (`undefined`) and the empty string are falsy. -/
def jsTruthy : Option String → Bool
  | none => false
  | some s => !(s == "")

/-- Model of JS `s.split(' ')` on the character list. -/
def splitOnSpaceChars : List Char → List (List Char)
  | [] => [[]]
  | c :: rest =>
    let groups := splitOnSpaceChars rest
    if c == ' ' then [] :: groups
    else
      match groups with
      | [] => [[c]]
      | g :: gs => (c :: g) :: gs

/-- Model of JS `s.split(' ')`. -/
def splitOnSpace (s : String) : List String :=
  (splitOnSpaceChars s.data).map fun cs => ⟨cs⟩

/-- JS `x || y` for a string (an empty string falls through to `y`). -/
def jsOrString (x y : String) : String := if x == "" then y else x

/-! ## JWT model (`jsonwebtoken` calls in `backend/index.js`) -/

/-- The payload signed by both `/api/signup` and `/api/login`:
`{ id: user.id, email: user.email, role: user.role }`. -/
structure JwtPayload where
  id : Int
  email : String
  role : String
deriving DecidableEq, Repr

/-- A token produced by `jwt.sign(payload, secret, { expiresIn: '7d' })`: the
signed claims plus the issue and expiry times in seconds. -/
structure SignedToken where
  payload : JwtPayload
  iat : Int
  exp : Int
  secret : String
deriving DecidableEq, Repr

/-- Seconds in the `'7d'` lifetime passed as `expiresIn`. -/
def sevenDaysInSeconds : Int := 7 * 24 * 60 * 60

/-- Model of `jwt.sign(payload, secret, { expiresIn: '7d' })` at time `now`. -/
def jwtSign (p : JwtPayload) (secret : String) (now : Int) : SignedToken :=
  { payload := p, iat := now, exp := now + sevenDaysInSeconds, secret := secret }

/-- Outcome of `jwt.verify`: success with the decoded payload, a
`TokenExpiredError`, or any other verification failure. -/
inductive VerifyResult
  | ok (payload : JwtPayload)
  | expired
  | invalid
deriving DecidableEq, Repr

/-- Outcome of the `authenticateToken` middleware: an error response, or
`next()` with `req.user` set to the decoded payload. -/
inductive AuthOutcome
  | reject (status : Nat) (error : String)
  | proceed (payload : JwtPayload)
deriving DecidableEq, Repr

/-- Token extraction in `authenticateToken`:
`authHeader && authHeader.split(' ')[1]`, with the following `if (!token)`
truthiness test folded in (`undefined` and `''` both give `none`). -/
def extractToken : Option String → Option String
  | none => none
  | some h =>
    match (splitOnSpace h).get? 1 with
    | none => none
    | some t => if t == "" then none else some t

/-- The `authenticateToken` middleware (`backend/index.js` lines 149-173);
`verify` abstracts `jwt.verify(token, JWT_SECRET)`. -/
def authenticateToken (verify : String → VerifyResult) (authHeader : Option String) : AuthOutcome :=
  match extractToken authHeader with
  | none => .reject 401 "Authentication required"
  | some token =>
    match verify token with
    | .ok user => .proceed user
    | .expired => .reject 401 "Token expired"
    | .invalid => .reject 403 "Invalid token"

/-! ## HTTP response shape -/

/-- An HTTP response: success with status and JSON body, or an error status
with the `error` field of a JSON error body. -/
inductive HttpResponse (α : Type)
  | ok (status : Nat) (body : α)
  | error (status : Nat) (message : String)
deriving DecidableEq, Repr

/-! ## User model (`backend/models/user.js`) -/

/-- A persisted `User` row.  `password` holds the bcrypt hash written by the
`beforeCreate` hook. -/
structure UserRow where
  id : Int
  name : String
  email : String
  password : String
  role : String
  lastLogin : Option Int
  passwordResetToken : Option String
  passwordResetExpires : Option Int
deriving DecidableEq, Repr

/-- The serialized user shape: `User.prototype.toJSON` copies the row and
deletes `password`, `passwordResetToken` and `passwordResetExpires`. -/
structure PublicUser where
  id : Int
  name : String
  email : String
  role : String
  lastLogin : Option Int
deriving DecidableEq, Repr

/-- Model of `User.prototype.toJSON`. -/
def UserRow.toJSON (u : UserRow) : PublicUser :=
  { id := u.id, name := u.name, email := u.email, role := u.role,
    lastLogin := u.lastLogin }

/-- Model of `User.prototype.validPassword`:
`bcrypt.compare(password, this.password)`, with the bcrypt comparison
abstracted as the parameter `compare`. -/
def UserRow.validPassword (compare : String → String → Bool) (u : UserRow)
    (password : String) : Bool :=
  compare password u.password

/-- The declarative `name` validators: `notEmpty` and `len: [2, 100]`. -/
def validName (s : String) : Bool :=
  !(s == "") && decide (2 ≤ s.length) && decide (s.length ≤ 100)

/-- The declarative `email` validators: `isEmail` (abstracted) and `notEmpty`. -/
def validEmailField (isEmail : String → Bool) (s : String) : Bool :=
  isEmail s && !(s == "")

/-- The declarative `password` validators: `notEmpty` and `len: [8, 100]`. -/
def validPasswordField (s : String) : Bool :=
  !(s == "") && decide (8 ≤ s.length) && decide (s.length ≤ 100)

/-- All field validators run by `User.create`. -/
def validUserFields (isEmail : String → Bool) (name email password : String) : Bool :=
  validName name && validEmailField isEmail email && validPasswordField password

/-! ## Auth handlers (`backend/index.js`) -/

/-- Handler of `POST /api/signup` (lines 176-211).  `isEmail` abstracts the
validator-library email check, `hash` abstracts `bcrypt.hash` applied by the
`beforeCreate` hook, `newId` the autoincrement primary key.  Field-validation
failures surface as 400, a duplicate email as 409. -/
def signup (isEmail : String → Bool) (hash : String → String) (secret : String)
    (now newId : Int) (db : List UserRow) (name email password : Option String) :
    HttpResponse (SignedToken × PublicUser) × List UserRow :=
  if !(jsTruthy name) || !(jsTruthy email) || !(jsTruthy password) then
    (.error 400 "Missing required fields", db)
  else
    let n := name.getD ""
    let e := email.getD ""
    let p := password.getD ""
    if !(validUserFields isEmail n e p) then
      (.error 400 "Validation error", db)
    else if db.any (fun u => u.email == e) then
      (.error 409 "Email already exists", db)
    else
      let user : UserRow :=
        { id := newId, name := n, email := e, password := hash p, role := "user",
          lastLogin := none, passwordResetToken := none, passwordResetExpires := none }
      let token := jwtSign { id := user.id, email := user.email, role := user.role } secret now
      (.ok 201 (token, user.toJSON), db ++ [user])

/-- Handler of `POST /api/login` (lines 214-252). -/
def login (compare : String → String → Bool) (secret : String) (now : Int)
    (db : List UserRow) (email password : Option String) :
    HttpResponse (SignedToken × PublicUser) × List UserRow :=
  if !(jsTruthy email) || !(jsTruthy password) then
    (.error 400 "Email and password are required", db)
  else
    let e := email.getD ""
    let p := password.getD ""
    match db.find? (fun u => u.email == e) with
    | none => (.error 401 "Invalid credentials", db)
    | some user =>
      if user.validPassword compare p then
        let user' := { user with lastLogin := some now }
        let db' := db.map fun v => if v.id == user.id then user' else v
        let token := jwtSign { id := user.id, email := user.email, role := user.role } secret now
        (.ok 200 (token, user'.toJSON), db')
      else (.error 401 "Invalid credentials", db)

/-- Handler of `GET /api/profile` (lines 255-268), after the auth middleware:
`User.findByPk(req.user.id)`. -/
def getProfile (db : List UserRow) (uid : Int) : HttpResponse PublicUser :=
  match db.find? (fun u => u.id == uid) with
  | none => .error 404 "User not found"
  | some user => .ok 200 user.toJSON

/-! ## Portfolio model (`backend/models/portfolio.js`) -/

/-- A persisted `Portfolio` row.  Quantities and prices are modelled as exact
rationals, dates as epoch milliseconds. -/
structure PortfolioRow where
  id : Int
  userId : Int
  symbol : String
  quantity : Rat
  purchasePrice : Option Rat
  purchaseDate : Option Int
  notes : Option String
deriving DecidableEq, Repr

/-- The declarative `symbol` validators: `notEmpty`, `len: [1, 20]` and the
custom `isUppercase` check (`value !== value.toUpperCase()` throws). -/
def validSymbol (s : String) : Bool :=
  !(s == "") && decide (1 ≤ s.length) && decide (s.length ≤ 20) && s == toUpperJS s

/-- The declarative `quantity` validators: `min: 0` and `isInt`. -/
def validQuantity (q : Rat) : Bool := decide (0 ≤ q) && q.den == 1

/-- The declarative `purchasePrice` validator: `min: 0` (null allowed). -/
def validPurchasePrice : Option Rat → Bool
  | none => true
  | some p => decide (0 ≤ p)

/-- All field validators of the `Portfolio` model. -/
def validPortfolioRow (r : PortfolioRow) : Bool :=
  validSymbol r.symbol && validQuantity r.quantity && validPurchasePrice r.purchasePrice

/-- The `beforeValidate` hook: `if (portfolio.symbol) portfolio.symbol =
portfolio.symbol.toUpperCase()`. -/
def beforeValidate (r : PortfolioRow) : PortfolioRow :=
  if !(r.symbol == "") then { r with symbol := toUpperJS r.symbol } else r

/-- Body of `POST /api/portfolio`; `none` models an absent field. -/
structure AddBody where
  symbol : Option String
  quantity : Option Rat
  purchasePrice : Option Rat
  purchaseDate : Option Int
  notes : Option String
deriving DecidableEq, Repr

/-- JS `x || y` for an optional number (`0` and `undefined` are falsy). -/
def jsOrRat : Option Rat → Option Rat → Option Rat
  | some v, old => if v == 0 then old else some v
  | none, old => old

/-- JS `x || y` for an optional date value (only absence is falsy here). -/
def jsOrDate : Option Int → Option Int → Option Int
  | some v, _ => some v
  | none, old => old

/-- JS `x || y` for an optional string (`''` and `undefined` are falsy). -/
def jsOrNotes : Option String → Option String → Option String
  | some v, old => if v == "" then old else some v
  | none, old => old

/-- The row built by `Portfolio.findOrCreate` when no row matches: the `where`
fields (`userId`, uppercased `symbol`) merged with the `defaults`
(`quantity`, `purchasePrice`, `purchaseDate || new Date()`, `notes`). -/
def createdRow (uid newId now : Int) (sym : String) (body : AddBody) : PortfolioRow :=
  { id := newId, userId := uid, symbol := sym, quantity := body.quantity.getD 0,
    purchasePrice := body.purchasePrice,
    purchaseDate := some (body.purchaseDate.getD now),
    notes := body.notes }

/-- The fields written by `portfolioItem.update({...})` when the row exists:
`quantity`, `purchasePrice || old`, `purchaseDate || old`, `notes || old`. -/
def updatedRow (r : PortfolioRow) (body : AddBody) : PortfolioRow :=
  { r with quantity := body.quantity.getD 0,
           purchasePrice := jsOrRat body.purchasePrice r.purchasePrice,
           purchaseDate := jsOrDate body.purchaseDate r.purchaseDate,
           notes := jsOrNotes body.notes r.notes }

/-- Handler of `POST /api/portfolio` (lines 329-373), after the auth
middleware.  A `SequelizeValidationError` from create or update surfaces
as 400. -/
def postPortfolio (db : List PortfolioRow) (uid newId now : Int) (body : AddBody) :
    HttpResponse PortfolioRow × List PortfolioRow :=
  if !(jsTruthy body.symbol) || body.quantity.isNone then
    (.error 400 "Symbol and quantity are required", db)
  else
    let sym := toUpperJS (body.symbol.getD "")
    match db.find? (fun r => r.userId == uid && r.symbol == sym) with
    | none =>
      let row := beforeValidate (createdRow uid newId now sym body)
      if validPortfolioRow row then (.ok 201 row, db ++ [row])
      else (.error 400 "Validation error", db)
    | some r =>
      let r' := beforeValidate (updatedRow r body)
      if validPortfolioRow r' then
        (.ok 200 r', db.map fun x => if x.id == r.id then r' else x)
      else (.error 400 "Validation error", db)

/-- Handler of `DELETE /api/portfolio/:symbol` (lines 376-397), after the auth
middleware.  `Portfolio.destroy({ where: { userId, symbol: toUpperCase } })`
returns the number of removed rows. -/
def deletePortfolio (db : List PortfolioRow) (uid : Int) (symbol : String) :
    HttpResponse Unit × List PortfolioRow :=
  if symbol == "" then (.error 400 "Symbol is required", db)
  else
    let sym := toUpperJS symbol
    let remaining := db.filter fun r => !(r.userId == uid && r.symbol == sym)
    if remaining.length == db.length then
      (.error 404 "Stock not found in portfolio", db)
    else (.ok 200 (), remaining)

/-- The uniqueness constraint declared by the model: the unique index
`portfolio_user_symbol_unique` on `(userId, symbol)`, read as a predicate on
the table. -/
def uniqueUserSymbol (db : List PortfolioRow) : Prop :=
  db.Pairwise fun a b => ¬(a.userId = b.userId ∧ a.symbol = b.symbol)

/-- Primary-key discipline of the table: `id` is unique. -/
def uniqueIds (db : List PortfolioRow) : Prop :=
  db.Pairwise fun a b => a.id ≠ b.id

/-! ## Stock data fallback (`backend/index.js` lines 29-90) -/

/-- The shape returned by the stock-data functions. -/
structure StockData where
  symbol : String
  name : String
  price : Rat
  change : Rat
  changePercent : Rat
deriving DecidableEq, Repr

/-- Rounding to two decimals, modelling `Number(x.toFixed(2))`. -/
def round2 (x : Rat) : Rat := ((⌊x * 100 + 1/2⌋ : Int) : Rat) / 100

/-- The fixed table of fallback quotes in `getFallbackStockData`. -/
def fallbackTable : String → Option (String × Rat × Rat × Rat)
  | "RELIANCE" => some ("Reliance Industries Ltd", 2890.15, 34.85, 1.22)
  | "TCS" => some ("Tata Consultancy Services", 4156.30, -18.45, -0.44)
  | "HDFCBANK" => some ("HDFC Bank Ltd", 1721.90, 12.25, 0.72)
  | "INFY" => some ("Infosys Ltd", 1834.25, -5.75, -0.31)
  | "ICICIBANK" => some ("ICICI Bank Ltd", 1267.80, 23.60, 1.90)
  | "WIPRO" => some ("Wipro Ltd", 567.45, -3.20, -0.56)
  | "ADANIGREEN" => some ("Adani Green Energy Ltd", 1456.50, 87.25, 6.37)
  | "BHARTIARTL" => some ("Bharti Airtel Ltd", 1534.70, 15.30, 1.01)
  | "SBIN" => some ("State Bank of India", 823.45, 8.75, 1.07)
  | "LT" => some ("Larsen & Toubro Ltd", 3678.90, -21.15, -0.57)
  | _ => none

/-- Model of `getFallbackStockData`.  `rand1` and `rand2` are the successive
values drawn from `Math.random()` (each in `[0,1)`); the known-symbol branch
draws one value, the unknown-symbol branch draws two. -/
def getFallbackStockData (rand1 rand2 : Rat) (symbol : String) : StockData :=
  match fallbackTable (toUpperJS symbol) with
  | some (nm, price, change, changePercent) =>
    let variation := (rand1 - 0.5) * 0.02
    { symbol := toUpperJS symbol, name := nm,
      price := round2 (price * (1 + variation)),
      change := round2 (change * (1 + variation)),
      changePercent := round2 (changePercent * (1 + variation)) }
  | none =>
    let basePrice := 500 + rand1 * 3000
    let changePercent := (rand2 - 0.5) * 6
    let change := basePrice * changePercent / 100
    { symbol := toUpperJS symbol, name := capitalizeJS symbol ++ " Ltd",
      price := round2 basePrice, change := round2 change,
      changePercent := round2 changePercent }

/-- Model of `fetchStockDataForBackend`: the missing-key branch returns
fallback data, the normal branch also returns fallback data directly (the
external call is commented out in the source), and a thrown error is caught
and returns fallback data as well. -/
def fetchStockDataForBackend (apiKey : Option String) (rand1 rand2 : Rat)
    (symbol : String) : StockData :=
  if !(jsTruthy apiKey) then getFallbackStockData rand1 rand2 symbol
  else getFallbackStockData rand1 rand2 symbol

/-! ## News service (`project/src/services/newsService.ts`) -/

/-- An entity attached to a Marketaux article (only the fields the service
reads). -/
structure MEntity where
  symbol : String
  type : String
  country : String
deriving DecidableEq, Repr

/-- A Marketaux article (only the fields the service reads).  A missing
`description` is modelled as the empty string; `publishedAt` is the parsed
`published_at` date in epoch milliseconds. -/
structure MArticle where
  uuid : String
  title : String
  description : String
  snippet : String
  source : String
  publishedAt : Int
  url : String
  entities : List MEntity
deriving DecidableEq, Repr

/-- The `category` union type of a `NewsItem`. -/
inductive Category
  | market
  | company
  | policy
  | economy
deriving DecidableEq, Repr

/-- The `NewsItem` shape produced by the service. -/
structure NewsItem where
  id : String
  headline : String
  summary : String
  source : String
  timestamp : Int
  url : String
  relevantStocks : List String
  category : Category
  isRecent : Bool
deriving DecidableEq, Repr

/-- Model of `categorizeNews` (lines 407-423): keyword groups tested by
substring presence on the lowercased concatenation, with if/else fallthrough. -/
def categorizeNews (title description : String) : Category :=
  let text := toLowerJS (title ++ " " ++ description)
  if strIncludes text "rbi" || strIncludes text "policy" ||
     strIncludes text "regulation" || strIncludes text "government" then
    .policy
  else if strIncludes text "gdp" || strIncludes text "inflation" ||
          strIncludes text "economy" || strIncludes text "economic" then
    .economy
  else if strIncludes text "nifty" || strIncludes text "sensex" ||
          strIncludes text "market" || strIncludes text "index" then
    .market
  else
    .company

/-- Keyword list of `checkMarketRelevance`. -/
def marketKeywords : List String :=
  ["nifty", "sensex", "bse", "nse", "market", "stock", "share", "equity",
   "trading", "investor", "investment", "portfolio", "mutual fund",
   "ipo", "listing", "earnings", "quarterly", "results", "profit",
   "revenue", "dividend", "bonus", "split", "merger", "acquisition",
   "bank", "financial", "sector", "industry", "corporate"]

/-- Model of `checkMarketRelevance`. -/
def checkMarketRelevance (headline summary : String) : Bool :=
  let text := toLowerJS (headline ++ " " ++ summary)
  marketKeywords.any fun keyword => strIncludes text keyword

/-- Keyword list of `checkIndianMarketRelevance`. -/
def indianKeywords : List String :=
  ["india", "indian", "mumbai", "delhi", "bangalore", "hyderabad",
   "rupee", "inr", "rbi", "sebi", "modi", "budget", "gst",
   "reliance", "tata", "adani", "ambani", "infosys", "wipro",
   "hdfc", "icici", "sbi", "axis", "kotak", "bharti", "airtel",
   "coal india", "ongc", "ntpc", "power grid", "oil india",
   "larsen", "toubro", "mahindra", "maruti", "hero motocorp"]

/-- Model of `checkIndianMarketRelevance`. -/
def checkIndianMarketRelevance (headline summary : String) : Bool :=
  let text := toLowerJS (headline ++ " " ++ summary)
  indianKeywords.any fun keyword => strIncludes text keyword

/-- Keyword list of `checkBusinessRelevance`. -/
def businessKeywords : List String :=
  ["merger", "acquisition", "joint venture", "partnership", "collaboration",
   "investment", "funding", "startup", "ceo", "founder", "launch",
   "product", "service", "technology", "innovation", "research",
   "development", "patent", "trademark", "copyright", "licensing",
   "regulation", "compliance", "audit", "financial", "report",
   "statement", "forecast", "guidance", "risk", "challenge", "opportunity"]

/-- Model of `checkBusinessRelevance`. -/
def checkBusinessRelevance (headline summary : String) : Bool :=
  let text := toLowerJS (headline ++ " " ++ summary)
  businessKeywords.any fun keyword => strIncludes text keyword

/-- Keyword list of `isCompletelyIrrelevant`. -/
def irrelevantKeywords : List String :=
  ["sports", "entertainment", "celebrity", "gossip", "reality show",
   "movie", "film", "music", "concert", "theater", "art",
   "fashion", "beauty", "lifestyle", "food", "recipe",
   "travel", "vacation", "holiday", "leisure", "hobby",
   "pets", "animal", "nature", "environment", "weather",
   "science", "health", "fitness", "wellness", "meditation",
   "yoga", "spirituality", "philosophy", "religion", "mythology"]

/-- Model of `isCompletelyIrrelevant`. -/
def isCompletelyIrrelevant (headline summary : String) : Bool :=
  let text := toLowerJS (headline ++ " " ++ summary)
  irrelevantKeywords.any fun keyword => strIncludes text keyword

/-- A regex word character, `\w` of JS: `[A-Za-z0-9_]`. -/
def isWordChar (c : Char) : Bool := c.isAlpha || c.isDigit || c == '_'

/-- A word boundary `\b` holds before the scan position `cs` when the previous
character `prev` (if any) is not a word character. -/
def boundaryBefore : Option Char → Bool
  | none => true
  | some c => !(isWordChar c)

/-- One alternative `w` matches at position `cs` with `\b` on both sides. -/
def wordMatchesAt (prev : Option Char) (w : List Char) (cs : List Char) : Bool :=
  boundaryBefore prev && w.isPrefixOf cs && boundaryBefore ((cs.drop w.length).head?)

/-- Scanning helper: does any alternative in `ws` match at some position of
the text, with word boundaries on both sides?  `prev` is the character before
the current position. -/
def scanHasWord (ws : List (List Char)) : Option Char → List Char → Bool
  | _, [] => false
  | prev, c :: rest =>
    ws.any (fun w => wordMatchesAt prev w (c :: rest)) || scanHasWord ws (some c) rest

/-- The word alternatives of the lenient-branch regex in `fetchNews`. -/
def financialWords : List String :=
  ["money", "finance", "business", "company", "corporate", "industry",
   "sector", "economic", "growth", "profit", "revenue", "earnings",
   "investment", "trade", "commercial"]

/-- Model of the case-insensitive word-boundary regex test
`/\b(money|finance|...)\b/i.test(text)` in the lenient filtering branch. -/
def hasFinancialWords (text : String) : Bool :=
  scanHasWord (financialWords.map String.data) none (toLowerJS text).data

/-- Milliseconds in a day. -/
def dayMs : Int := 24 * 60 * 60 * 1000

/-- The news cache entry: `{ data, timestamp }`. -/
structure NewsCacheEntry where
  data : List NewsItem
  timestamp : Int
deriving DecidableEq, Repr

/-- The cache time-to-live: `20 * 60 * 1000` (20 minutes). -/
def CACHE_DURATION : Int := 20 * 60 * 1000

/-- The freshness test `cache && Date.now() - cache.timestamp < CACHE_DURATION`. -/
def cacheFresh (cache : Option NewsCacheEntry) (now : Int) : Bool :=
  match cache with
  | some c => decide (now - c.timestamp < CACHE_DURATION)
  | none => false

/-- Model of `getCachedNews` (lines 376-404): the memory cache first, then
localStorage; returns the article list and the (possibly refreshed) memory
cache. -/
def getCachedNews (memCache localStore : Option NewsCacheEntry) (now : Int) :
    List NewsItem × Option NewsCacheEntry :=
  match memCache with
  | some c =>
    if now - c.timestamp < CACHE_DURATION then (c.data, memCache)
    else
      match localStore with
      | some l =>
        if now - l.timestamp < CACHE_DURATION then (l.data, some l)
        else ([], memCache)
      | none => ([], memCache)
  | none =>
    match localStore with
    | some l =>
      if now - l.timestamp < CACHE_DURATION then (l.data, some l)
      else ([], memCache)
    | none => ([], memCache)

/-- Outcome of one `fetch` to the news provider: a rejected promise, a
non-`ok` HTTP response, or a parsed body with its `data` array. -/
inductive FetchOutcome
  | netError
  | httpError
  | ok (articles : List MArticle)

/-- The provider environment of one `fetchNews` run: the API key and the
responses of the strategy-1 (global), strategy-2 (India) and per-keyword
strategy-3 requests. -/
structure NewsEnv where
  apiKey : Option String
  globalFetch : FetchOutcome
  indiaFetch : FetchOutcome
  keywordFetch : String → FetchOutcome

/-- Articles of `newOnes` whose `uuid` does not already occur in `existing`
(the duplicate filter applied before pushing). -/
def dedupAgainst (existing newOnes : List MArticle) : List MArticle :=
  newOnes.filter fun a => !(existing.any fun e => e.uuid == a.uuid)

/-- The keyword list of strategy 3. -/
def strategy3Keywords : List String :=
  ["stock", "market", "investment", "financial", "economy"]

/-- The strategy-3 loop: for each keyword, stop once 20 articles are
collected, otherwise fetch (an error here is caught locally and skipped) and
push at most 5 deduplicated articles.  Returns the collected articles and the
number of requests issued. -/
def runKeywords (kf : String → FetchOutcome) : List String → List MArticle →
    List MArticle × Nat
  | [], acc => (acc, 0)
  | k :: rest, acc =>
    if acc.length ≥ 20 then (acc, 0)
    else
      match kf k with
      | .ok l =>
        let step := runKeywords kf rest (acc ++ (dedupAgainst acc l).take 5)
        (step.1, step.2 + 1)
      | _ =>
        let step := runKeywords kf rest acc
        (step.1, step.2 + 1)

/-- The article-collection phase of `fetchNews` (strategies 1-3).  Returns
`none` when a throw escapes to the outer catch (a network error of the
strategy-1 or strategy-2 fetch), together with the number of requests issued. -/
def collectArticles (env : NewsEnv) : Option (List MArticle) × Nat :=
  match env.globalFetch with
  | .netError => (none, 1)
  | o1 =>
    let a1 := match o1 with | .ok l => l | _ => []
    if a1.length < 10 then
      match env.indiaFetch with
      | .netError => (none, 2)
      | o2 =>
        let a2 := a1 ++ (match o2 with | .ok l => dedupAgainst a1 l | _ => [])
        if a2.length < 15 then
          let step := runKeywords env.keywordFetch strategy3Keywords a2
          (some step.1, 2 + step.2)
        else (some a2, 2)
    else
      if a1.length < 15 then
        let step := runKeywords env.keywordFetch strategy3Keywords a1
        (some step.1, 1 + step.2)
      else (some a1, 1)

/-- The deduplication `filter((a, i, self) => i === self.findIndex(...))`:
keep the first occurrence of each `uuid`. -/
def dedupByUuid (l : List MArticle) : List MArticle :=
  l.foldl (fun acc a => if acc.any (fun e => e.uuid == a.uuid) then acc else acc ++ [a]) []

/-- The mapping of one recent article to a `NewsItem` (lines 211-229). -/
def toNewsItem (now : Int) (a : MArticle) : NewsItem :=
  { id := a.uuid,
    headline := a.title,
    summary := jsOrString a.description (jsOrString a.snippet ""),
    source := a.source,
    timestamp := a.publishedAt,
    url := a.url,
    relevantStocks :=
      ((a.entities.filter fun e => e.type == "equity" && e.country == "in").map
        (fun e => e.symbol)).filter fun s => !(s == ""),
    category := categorizeNews a.title (jsOrString a.description (jsOrString a.snippet "")),
    isRecent := decide (a.publishedAt ≥ now - dayMs) }

/-- The relevance predicate of the `marketRelevantNews` filter; `total` is
`newsItems.length`, used by the lenient branch. -/
def newsRelevantPred (total : Nat) (item : NewsItem) : Bool :=
  let hasStocks := decide (item.relevantStocks.length > 0)
  let isMarketRelevant := checkMarketRelevance item.headline item.summary
  let isIndianRelevant := checkIndianMarketRelevance item.headline item.summary
  let isBusinessRelevant := checkBusinessRelevance item.headline item.summary
  let isRelevant := hasStocks || isMarketRelevant || isIndianRelevant || isBusinessRelevant
  if !isRelevant && decide (total < 15) then
    hasFinancialWords (item.headline ++ " " ++ item.summary)
  else isRelevant

/-- The relevance filter plus the include-more-general-news top-up
(lines 232-264). -/
def buildFinalNews (newsItems : List NewsItem) : List NewsItem :=
  let marketRelevantNews := newsItems.filter (newsRelevantPred newsItems.length)
  if marketRelevantNews.length < 10 then
    let additionalNews :=
      ((newsItems.filter fun i => !(decide (i ∈ marketRelevantNews))).filter
        fun i => !(isCompletelyIrrelevant i.headline i.summary)).take
        (15 - marketRelevantNews.length)
    marketRelevantNews ++ additionalNews
  else marketRelevantNews

/-- The sort comparator (lines 267-277) read as a `before-or-equal` relation:
recent articles first, then by descending timestamp. -/
def newsLe (a b : NewsItem) : Bool :=
  if a.isRecent && !b.isRecent then true
  else if !a.isRecent && b.isRecent then false
  else decide (b.timestamp ≤ a.timestamp)

/-- Stable insertion of `a` into an already sorted list. -/
def insertSorted (le : NewsItem → NewsItem → Bool) (a : NewsItem) :
    List NewsItem → List NewsItem
  | [] => [a]
  | b :: bs => if le a b then a :: b :: bs else b :: insertSorted le a bs

/-- The stable sort of `finalNews.sort(comparator)` (JS array sort is
stable). -/
def sortNews (l : List NewsItem) : List NewsItem :=
  l.foldr (insertSorted newsLe) []

/-- The result of one `fetchNews` run: the returned list, the cache after the
run (memory and localStorage are written together), and the number of
provider requests issued. -/
structure FetchNewsResult where
  result : List NewsItem
  newCache : Option NewsCacheEntry
  requests : Nat

/-- Model of `getFallbackNews` (lines 486-656): the fixed list of fifteen
placeholder articles, with timestamps offset from the current time. -/
def getFallbackNews (currentTime : Int) : List NewsItem :=
  [{ id := "fallback-1",
     headline := "Indian Markets Show Resilience Amid Global Uncertainty",
     summary := "Nifty 50 and Sensex maintain steady performance as investors focus on domestic fundamentals and upcoming earnings season. Market participants remain cautiously optimistic.",
     source := "Market News", timestamp := currentTime - 1000 * 60 * 30, url := "#",
     relevantStocks := ["NIFTY50"], category := .market, isRecent := true },
   { id := "fallback-2",
     headline := "RBI Monetary Policy Decision Awaited by Market Participants",
     summary := "Investors and analysts closely watching for any changes in repo rate and policy stance in the upcoming RBI meeting. Banking sector stocks show mixed performance.",
     source := "Economic News", timestamp := currentTime - 1000 * 60 * 60, url := "#",
     relevantStocks := ["HDFCBANK", "ICICIBANK"], category := .policy, isRecent := true },
   { id := "fallback-3",
     headline := "Technology Sector Leads Market Rally",
     summary := "IT stocks show strong performance driven by digital transformation demand and favorable currency movements. Major players report strong quarterly results.",
     source := "Tech News", timestamp := currentTime - 1000 * 60 * 90, url := "#",
     relevantStocks := ["TCS", "INFY", "WIPRO"], category := .company, isRecent := true },
   { id := "fallback-4",
     headline := "Reliance Industries Reports Strong Q4 Earnings",
     summary := "Oil-to-chemicals giant Reliance Industries posted robust quarterly earnings, beating analyst estimates. Retail and telecom segments show continued growth.",
     source := "Business News", timestamp := currentTime - 1000 * 60 * 120, url := "#",
     relevantStocks := ["RELIANCE"], category := .company, isRecent := true },
   { id := "fallback-5",
     headline := "HDFC Bank Maintains Leadership in Digital Banking",
     summary := "Private sector lender continues to expand its digital footprint with new fintech partnerships and innovative banking solutions for retail customers.",
     source := "Banking News", timestamp := currentTime - 1000 * 60 * 150, url := "#",
     relevantStocks := ["HDFCBANK"], category := .company, isRecent := true },
   { id := "fallback-6",
     headline := "FII Flows Show Recovery After Recent Volatility",
     summary := "Foreign institutional investors return to Indian markets with net inflows recorded this week, signaling renewed confidence in domestic growth prospects.",
     source := "Investment News", timestamp := currentTime - 1000 * 60 * 180, url := "#",
     relevantStocks := ["NIFTY50"], category := .market, isRecent := true },
   { id := "fallback-7",
     headline := "Adani Group Stocks Rebound on Infrastructure Push",
     summary := "Adani portfolio companies see strong investor interest as the group announces major infrastructure projects across renewable energy and logistics.",
     source := "Infrastructure News", timestamp := currentTime - 1000 * 60 * 210, url := "#",
     relevantStocks := ["ADANIGREEN"], category := .company, isRecent := true },
   { id := "fallback-8",
     headline := "Government Announces New Manufacturing Incentives",
     summary := "Centre unveils fresh policy measures to boost domestic manufacturing, with focus on electronics, textiles, and automotive sectors.",
     source := "Policy News", timestamp := currentTime - 1000 * 60 * 240, url := "#",
     relevantStocks := ["MARUTI", "MAHINDRA"], category := .policy, isRecent := true },
   { id := "fallback-9",
     headline := "Pharmaceutical Sector Gains on Export Demand",
     summary := "Indian pharma companies report increased export orders, particularly in generic drugs and active pharmaceutical ingredients (APIs).",
     source := "Pharma News", timestamp := currentTime - 1000 * 60 * 270, url := "#",
     relevantStocks := ["SUNPHARMA", "DRREDDY"], category := .company, isRecent := true },
   { id := "fallback-10",
     headline := "Steel Industry Outlook Remains Positive",
     summary := "Domestic steel demand continues to grow driven by infrastructure projects and construction activity. Major steel producers report capacity expansion plans.",
     source := "Steel News", timestamp := currentTime - 1000 * 60 * 300, url := "#",
     relevantStocks := ["TATASTEEL", "JSWSTEEL"], category := .company, isRecent := true },
   { id := "fallback-11",
     headline := "Auto Sector Shows Signs of Recovery",
     summary := "Vehicle sales data indicates improving consumer demand, with both passenger and commercial vehicle segments showing growth momentum.",
     source := "Auto News", timestamp := currentTime - 1000 * 60 * 330, url := "#",
     relevantStocks := ["MARUTI", "TATAMOTORS"], category := .company, isRecent := true },
   { id := "fallback-12",
     headline := "Renewable Energy Investments Surge",
     summary := "India attracts record investments in renewable energy sector as the country accelerates towards its clean energy targets.",
     source := "Energy News", timestamp := currentTime - 1000 * 60 * 360, url := "#",
     relevantStocks := ["ADANIGREEN", "TATAPOWER"], category := .economy, isRecent := true },
   { id := "fallback-13",
     headline := "Digital Payment Adoption Continues Growth",
     summary := "UPI transactions hit new records as digital payment adoption accelerates across urban and rural markets.",
     source := "Fintech News", timestamp := currentTime - 1000 * 60 * 390, url := "#",
     relevantStocks := ["PAYTM", "HDFCBANK"], category := .company, isRecent := true },
   { id := "fallback-14",
     headline := "Startup Ecosystem Attracts Global Attention",
     summary := "Indian startups continue to attract significant venture capital funding, with several new unicorns emerging across different sectors.",
     source := "Startup News", timestamp := currentTime - 1000 * 60 * 420, url := "#",
     relevantStocks := ["NYKAA", "ZOMATO"], category := .company, isRecent := false },
   { id := "fallback-15",
     headline := "Monsoon Forecast Positive for Agricultural Sector",
     summary := "Weather department predicts normal monsoon, raising hopes for good agricultural output and rural demand recovery.",
     source := "Agriculture News", timestamp := currentTime - 1000 * 60 * 450, url := "#",
     relevantStocks := ["ITC", "UBL"], category := .economy, isRecent := false }]

/-- The cache-miss path of `fetchNews`: `getApiKey()` throws on a missing key
(caught by the outer catch, which returns `getFallbackNews()`); an escaping
fetch error likewise falls back; otherwise the collected articles are
deduplicated, restricted to three days, mapped, filtered, topped up and
sorted; an empty final list also falls back; otherwise the result is cached
with the current timestamp. -/
def fetchNewsFresh (env : NewsEnv)
    (memCache : Option NewsCacheEntry) (now : Int) : FetchNewsResult :=
  if !(jsTruthy env.apiKey) then
    { result := getFallbackNews now, newCache := memCache, requests := 0 }
  else
    match collectArticles env with
    | (none, n) => { result := getFallbackNews now, newCache := memCache, requests := n }
    | (some arts, n) =>
      let uniqueArticles := dedupByUuid arts
      let recentArticles := uniqueArticles.filter fun a =>
        decide (a.publishedAt ≥ now - 3 * dayMs)
      let newsItems := recentArticles.map (toNewsItem now)
      let finalNews := sortNews (buildFinalNews newsItems)
      if finalNews.length == 0 then
        { result := getFallbackNews now, newCache := memCache, requests := n }
      else
        { result := finalNews, newCache := some ⟨finalNews, now⟩, requests := n }

/-- Model of `fetchNews` (lines 73-309): the cached list is returned without
any provider request while the entry is younger than `CACHE_DURATION`,
otherwise the fresh path runs. -/
def fetchNews (env : NewsEnv)
    (memCache : Option NewsCacheEntry) (now : Int) : FetchNewsResult :=
  match memCache with
  | some c =>
    if now - c.timestamp < CACHE_DURATION then
      { result := c.data, newCache := memCache, requests := 0 }
    else fetchNewsFresh env memCache now
  | none => fetchNewsFresh env memCache now

/-! ## Helper lemmas -/

theorem charOfNat_toNat_sub32 :
    ∀ n : Nat, n < 123 → 97 ≤ n → (Char.ofNat (n - 32)).toNat = n - 32 := by decide

theorem upChar_of_lower (c : Char) (h1 : 97 ≤ c.toNat) (h2 : c.toNat ≤ 122) :
    upChar c = Char.ofNat (c.toNat - 32) := by
  unfold upChar
  rw [if_pos]
  simp [h1, h2]

theorem upChar_of_not_lower (c : Char) (h : ¬(97 ≤ c.toNat ∧ c.toNat ≤ 122)) :
    upChar c = c := by
  unfold upChar
  rw [if_neg]
  simp only [Bool.and_eq_true, decide_eq_true_eq, not_and]
  omega

theorem upChar_idem (c : Char) : upChar (upChar c) = upChar c := by
  by_cases h : 97 ≤ c.toNat ∧ c.toNat ≤ 122
  · rw [upChar_of_lower c h.1 h.2]
    have key : (Char.ofNat (c.toNat - 32)).toNat = c.toNat - 32 :=
      charOfNat_toNat_sub32 c.toNat (by omega) h.1
    exact upChar_of_not_lower _ (by rw [key]; omega)
  · rw [upChar_of_not_lower c h, upChar_of_not_lower c h]

theorem toUpperJS_idem (s : String) : toUpperJS (toUpperJS s) = toUpperJS s := by
  unfold toUpperJS
  apply congrArg String.mk
  show (s.data.map upChar).map upChar = s.data.map upChar
  rw [List.map_map]
  exact List.map_congr_left fun c _ => upChar_idem c

theorem toUpperJS_eq_empty_iff (s : String) : toUpperJS s = "" ↔ s = "" := by
  constructor
  · intro h
    have hd : s.data.map upChar = [] := congrArg String.data h
    have : s.data = [] := List.map_eq_nil_iff.mp hd
    cases s
    simp_all
  · intro h
    subst h
    rfl

theorem eq_of_mem_uniqueIds : ∀ {db : List PortfolioRow}, uniqueIds db →
    ∀ {a b : PortfolioRow}, a ∈ db → b ∈ db → a.id = b.id → a = b := by
  intro db
  induction db with
  | nil => intro _ a b ha; cases ha
  | cons x xs ih =>
    intro h a b ha hb hid
    rw [uniqueIds, List.pairwise_cons] at h
    rcases List.mem_cons.mp ha with ha1 | ha2
    · rcases List.mem_cons.mp hb with hb1 | hb2
      · rw [ha1, hb1]
      · exfalso
        rw [ha1] at hid
        exact h.1 b hb2 hid
    · rcases List.mem_cons.mp hb with hb1 | hb2
      · exfalso
        rw [hb1] at hid
        exact h.1 a ha2 hid.symm
      · exact ih h.2 ha2 hb2 hid

/-! ## Claims about authentication (C1, C2) -/

/-- C1: For every `POST /api/login` request carrying an email and a password:
if a user with that email exists and the password matches the stored
credential hash, the handler responds with a signed JWT whose payload is the
user's id, email and role and whose lifetime is 7 days; otherwise (unknown
email or failing password comparison) it responds 401 with an
`Invalid credentials` error body, which issues no token. -/
theorem C1_login_spec (compare : String → String → Bool) (secret : String)
    (now : Int) (db : List UserRow) (e p : String) (he : e ≠ "") (hp : p ≠ "") :
    (∀ u, db.find? (fun v => v.email == e) = some u →
      u.validPassword compare p = true →
      login compare secret now db (some e) (some p) =
        (.ok 200 (jwtSign { id := u.id, email := u.email, role := u.role } secret now,
                  ({ u with lastLogin := some now } : UserRow).toJSON),
         db.map fun v => if v.id == u.id then { u with lastLogin := some now } else v) ∧
      (jwtSign { id := u.id, email := u.email, role := u.role } secret now).exp -
        (jwtSign { id := u.id, email := u.email, role := u.role } secret now).iat =
          7 * 24 * 60 * 60) ∧
    (db.find? (fun v => v.email == e) = none →
      login compare secret now db (some e) (some p) =
        (.error 401 "Invalid credentials", db)) ∧
    (∀ u, db.find? (fun v => v.email == e) = some u →
      u.validPassword compare p = false →
      login compare secret now db (some e) (some p) =
        (.error 401 "Invalid credentials", db)) := by
  have hte : jsTruthy (some e) = true := by simp [jsTruthy, he]
  have htp : jsTruthy (some p) = true := by simp [jsTruthy, hp]
  refine ⟨?_, ?_, ?_⟩
  · intro u hfind hvalid
    constructor
    · simp only [login, hte, htp, Bool.not_true, Bool.false_or, Bool.or_self,
        Bool.false_eq_true, if_false, Option.getD_some, hfind, hvalid, if_true]
    · simp [jwtSign, sevenDaysInSeconds]
  · intro hfind
    simp only [login, hte, htp, Bool.not_true, Bool.false_or, Bool.or_self,
      Bool.false_eq_true, if_false, Option.getD_some, hfind]
  · intro u hfind hvalid
    simp only [login, hte, htp, Bool.not_true, Bool.false_or, Bool.or_self,
      Bool.false_eq_true, if_false, Option.getD_some, hfind, hvalid,
      Bool.true_eq_false, if_true]

/-- C1 witness: a concrete successful login. -/
theorem C1_login_spec_witness :
    login (fun a b => a == b) "secret" 0
        [{ id := 1, name := "Alice", email := "a@x.com", password := "pw12345678",
           role := "user", lastLogin := none, passwordResetToken := none,
           passwordResetExpires := none }] (some "a@x.com") (some "pw12345678") =
      (.ok 200 (jwtSign { id := 1, email := "a@x.com", role := "user" } "secret" 0,
        { id := 1, name := "Alice", email := "a@x.com", role := "user",
          lastLogin := some 0 }),
       [{ id := 1, name := "Alice", email := "a@x.com", password := "pw12345678",
          role := "user", lastLogin := some 0, passwordResetToken := none,
          passwordResetExpires := none }]) := by
  have h := ((C1_login_spec (fun a b => a == b) "secret" 0
      [{ id := 1, name := "Alice", email := "a@x.com", password := "pw12345678",
         role := "user", lastLogin := none, passwordResetToken := none,
         passwordResetExpires := none }] "a@x.com" "pw12345678"
      (by decide) (by decide)).1
      { id := 1, name := "Alice", email := "a@x.com", password := "pw12345678",
        role := "user", lastLogin := none, passwordResetToken := none,
        passwordResetExpires := none } (by decide) (by decide)).1
  rw [h]
  decide

/-- C2: On bearer-protected endpoints: a missing token gives 401 and the
handler never runs; an expired token gives 401 `Token expired`; any other
verification failure gives 403 `Invalid token`; `next()` runs exactly when
`jwt.verify` succeeds on the extracted token. -/
theorem C2_authenticateToken_spec (verify : String → VerifyResult) :
    (∀ h, extractToken h = none →
      authenticateToken verify h = .reject 401 "Authentication required") ∧
    (∀ h t, extractToken h = some t → verify t = .expired →
      authenticateToken verify h = .reject 401 "Token expired") ∧
    (∀ h t, extractToken h = some t → verify t = .invalid →
      authenticateToken verify h = .reject 403 "Invalid token") ∧
    (∀ h payload, authenticateToken verify h = .proceed payload ↔
      ∃ t, extractToken h = some t ∧ verify t = .ok payload) := by
  refine ⟨?_, ?_, ?_, ?_⟩
  · intro h hx
    simp [authenticateToken, hx]
  · intro h t hx hv
    simp [authenticateToken, hx, hv]
  · intro h t hx hv
    simp [authenticateToken, hx, hv]
  · intro h payload
    constructor
    · intro hp
      unfold authenticateToken at hp
      rcases hx : extractToken h with _ | t <;> rw [hx] at hp
      · simp at hp
      · rcases hv : verify t with p | _ | _ <;> simp [hv] at hp
        exact ⟨t, rfl, by rw [hv, hp]⟩
    · intro ⟨t, hx, hv⟩
      simp [authenticateToken, hx, hv]

/-- C2 witness: a concrete expired token is rejected with 401. -/
theorem C2_authenticateToken_spec_witness :
    authenticateToken (fun _ => VerifyResult.expired) (some "Bearer abc") =
      .reject 401 "Token expired" :=
  (C2_authenticateToken_spec (fun _ => VerifyResult.expired)).2.1
    (some "Bearer abc") "abc" (by decide) rfl

/-! ## Claim about news categorization (C7) -/

/-- C7: `categorizeNews` lowercases the concatenation of title and
description and returns `policy` if it contains any of `rbi`, `policy`,
`regulation`, `government`; otherwise `economy` if it contains any of `gdp`,
`inflation`, `economy`, `economic`; otherwise `market` if it contains any of
`nifty`, `sensex`, `market`, `index`; otherwise `company` — the earlier
groups take priority and the result is always one of the four categories. -/
theorem C7_categorizeNews_spec (title description : String) :
    ((strIncludes (toLowerJS (title ++ " " ++ description)) "rbi" = true ∨
      strIncludes (toLowerJS (title ++ " " ++ description)) "policy" = true ∨
      strIncludes (toLowerJS (title ++ " " ++ description)) "regulation" = true ∨
      strIncludes (toLowerJS (title ++ " " ++ description)) "government" = true) →
      categorizeNews title description = .policy) ∧
    ((strIncludes (toLowerJS (title ++ " " ++ description)) "rbi" = false ∧
      strIncludes (toLowerJS (title ++ " " ++ description)) "policy" = false ∧
      strIncludes (toLowerJS (title ++ " " ++ description)) "regulation" = false ∧
      strIncludes (toLowerJS (title ++ " " ++ description)) "government" = false) →
      (strIncludes (toLowerJS (title ++ " " ++ description)) "gdp" = true ∨
       strIncludes (toLowerJS (title ++ " " ++ description)) "inflation" = true ∨
       strIncludes (toLowerJS (title ++ " " ++ description)) "economy" = true ∨
       strIncludes (toLowerJS (title ++ " " ++ description)) "economic" = true) →
      categorizeNews title description = .economy) ∧
    ((strIncludes (toLowerJS (title ++ " " ++ description)) "rbi" = false ∧
      strIncludes (toLowerJS (title ++ " " ++ description)) "policy" = false ∧
      strIncludes (toLowerJS (title ++ " " ++ description)) "regulation" = false ∧
      strIncludes (toLowerJS (title ++ " " ++ description)) "government" = false) →
      (strIncludes (toLowerJS (title ++ " " ++ description)) "gdp" = false ∧
       strIncludes (toLowerJS (title ++ " " ++ description)) "inflation" = false ∧
       strIncludes (toLowerJS (title ++ " " ++ description)) "economy" = false ∧
       strIncludes (toLowerJS (title ++ " " ++ description)) "economic" = false) →
      (strIncludes (toLowerJS (title ++ " " ++ description)) "nifty" = true ∨
       strIncludes (toLowerJS (title ++ " " ++ description)) "sensex" = true ∨
       strIncludes (toLowerJS (title ++ " " ++ description)) "market" = true ∨
       strIncludes (toLowerJS (title ++ " " ++ description)) "index" = true) →
      categorizeNews title description = .market) ∧
    ((strIncludes (toLowerJS (title ++ " " ++ description)) "rbi" = false ∧
      strIncludes (toLowerJS (title ++ " " ++ description)) "policy" = false ∧
      strIncludes (toLowerJS (title ++ " " ++ description)) "regulation" = false ∧
      strIncludes (toLowerJS (title ++ " " ++ description)) "government" = false) →
      (strIncludes (toLowerJS (title ++ " " ++ description)) "gdp" = false ∧
       strIncludes (toLowerJS (title ++ " " ++ description)) "inflation" = false ∧
       strIncludes (toLowerJS (title ++ " " ++ description)) "economy" = false ∧
       strIncludes (toLowerJS (title ++ " " ++ description)) "economic" = false) →
      (strIncludes (toLowerJS (title ++ " " ++ description)) "nifty" = false ∧
       strIncludes (toLowerJS (title ++ " " ++ description)) "sensex" = false ∧
       strIncludes (toLowerJS (title ++ " " ++ description)) "market" = false ∧
       strIncludes (toLowerJS (title ++ " " ++ description)) "index" = false) →
      categorizeNews title description = .company) ∧
    (categorizeNews title description = .policy ∨
     categorizeNews title description = .economy ∨
     categorizeNews title description = .market ∨
     categorizeNews title description = .company) := by
  unfold categorizeNews
  refine ⟨?_, ?_, ?_, ?_, ?_⟩
  · intro h
    rcases h with h | h | h | h <;> simp [h]
  · intro hn h
    rcases h with h | h | h | h <;>
      simp [hn.1, hn.2.1, hn.2.2.1, hn.2.2.2, h]
  · intro hn hn2 h
    rcases h with h | h | h | h <;>
      simp [hn.1, hn.2.1, hn.2.2.1, hn.2.2.2, hn2.1, hn2.2.1, hn2.2.2.1, hn2.2.2.2, h]
  · intro hn hn2 hn3
    simp [hn.1, hn.2.1, hn.2.2.1, hn.2.2.2, hn2.1, hn2.2.1, hn2.2.2.1, hn2.2.2.2,
      hn3.1, hn3.2.1, hn3.2.2.1, hn3.2.2.2]
  · by_cases h1 : (strIncludes (toLowerJS (title ++ " " ++ description)) "rbi" ||
        strIncludes (toLowerJS (title ++ " " ++ description)) "policy" ||
        strIncludes (toLowerJS (title ++ " " ++ description)) "regulation" ||
        strIncludes (toLowerJS (title ++ " " ++ description)) "government") = true
    · simp [h1]
    · rw [Bool.not_eq_true] at h1
      by_cases h2 : (strIncludes (toLowerJS (title ++ " " ++ description)) "gdp" ||
          strIncludes (toLowerJS (title ++ " " ++ description)) "inflation" ||
          strIncludes (toLowerJS (title ++ " " ++ description)) "economy" ||
          strIncludes (toLowerJS (title ++ " " ++ description)) "economic") = true
      · simp [h1, h2]
      · rw [Bool.not_eq_true] at h2
        by_cases h3 : (strIncludes (toLowerJS (title ++ " " ++ description)) "nifty" ||
            strIncludes (toLowerJS (title ++ " " ++ description)) "sensex" ||
            strIncludes (toLowerJS (title ++ " " ++ description)) "market" ||
            strIncludes (toLowerJS (title ++ " " ++ description)) "index") = true
        · simp [h1, h2, h3]
        · rw [Bool.not_eq_true] at h3
          simp [h1, h2, h3]

/-- C7 witness: a headline containing `rbi` is categorized as `policy`. -/
theorem C7_categorizeNews_spec_witness :
    categorizeNews "RBI keeps repo rate unchanged" "" = .policy :=
  (C7_categorizeNews_spec "RBI keeps repo rate unchanged" "").1 (Or.inl (by decide))

/-! ## Claim about status mapping (C3) -/

/-- C3: Missing required fields map to 400 and missing resources to 404: a
signup request lacking name, email or password answers 400; a portfolio-add
request lacking symbol or quantity answers 400; an authenticated delete of a
symbol whose uppercased form matches no row of that user answers 404
`Stock not found in portfolio`, and no row of any user is removed (the
table is returned unchanged). -/
theorem C3_missing_field_and_resource_spec :
    (∀ (isEmail : String → Bool) (hash : String → String) (secret : String)
       (now newId : Int) (db : List UserRow) (name email password : Option String),
      (jsTruthy name = false ∨ jsTruthy email = false ∨ jsTruthy password = false) →
      signup isEmail hash secret now newId db name email password =
        (.error 400 "Missing required fields", db)) ∧
    (∀ (db : List PortfolioRow) (uid newId now : Int) (body : AddBody),
      (jsTruthy body.symbol = false ∨ body.quantity = none) →
      postPortfolio db uid newId now body =
        (.error 400 "Symbol and quantity are required", db)) ∧
    (∀ (db : List PortfolioRow) (uid : Int) (s : String), s ≠ "" →
      (∀ r ∈ db, ¬(r.userId = uid ∧ r.symbol = toUpperJS s)) →
      deletePortfolio db uid s = (.error 404 "Stock not found in portfolio", db)) := by
  refine ⟨?_, ?_, ?_⟩
  · intro isEmail hash secret now newId db name email password h
    rcases h with h | h | h <;> simp [signup, h]
  · intro db uid newId now body h
    rcases h with h | h <;> simp [postPortfolio, h]
  · intro db uid s hs hnone
    have hs' : (s == "") = false := by simp [hs]
    have hfilter : (db.filter fun r => !(r.userId == uid && r.symbol == toUpperJS s)) = db := by
      apply List.filter_eq_self.mpr
      intro r hr
      have hr' := hnone r hr
      simp only [Bool.not_eq_true', Bool.and_eq_false_iff, beq_eq_false_iff_ne, ne_eq]
      tauto
    simp [deletePortfolio, hs', hfilter]
    exact fun x hx hxu hxs => hnone x hx ⟨hxu, hxs⟩

/-- C3 witness: deleting a symbol from an empty portfolio answers 404. -/
theorem C3_missing_field_and_resource_spec_witness :
    deletePortfolio [] 1 "TCS" = (.error 404 "Stock not found in portfolio", []) :=
  C3_missing_field_and_resource_spec.2.2 [] 1 "TCS" (by decide)
    (by intro r hr; cases hr)

/-! ## Support lemmas for the portfolio handler -/

theorem beforeValidate_id (r : PortfolioRow) : (beforeValidate r).id = r.id := by
  unfold beforeValidate
  split <;> rfl

theorem beforeValidate_userId (r : PortfolioRow) : (beforeValidate r).userId = r.userId := by
  unfold beforeValidate
  split <;> rfl

theorem beforeValidate_symbol_of_upper (r : PortfolioRow)
    (h : toUpperJS r.symbol = r.symbol) : (beforeValidate r).symbol = r.symbol := by
  unfold beforeValidate
  split <;> simp [h]

theorem toUpperJS_ne_empty {s : String} (h : s ≠ "") : toUpperJS s ≠ "" :=
  fun he => h ((toUpperJS_eq_empty_iff s).mp he)

theorem updatedRow_id (r : PortfolioRow) (body : AddBody) :
    (updatedRow r body).id = r.id := rfl

theorem updatedRow_userId (r : PortfolioRow) (body : AddBody) :
    (updatedRow r body).userId = r.userId := rfl

theorem updatedRow_symbol (r : PortfolioRow) (body : AddBody) :
    (updatedRow r body).symbol = r.symbol := rfl

/-- A row matched by the `findOrCreate` `where` clause keeps its key fields
through `updatedRow` and the `beforeValidate` hook. -/
theorem updated_key_fields (r : PortfolioRow) (body : AddBody) (s : String)
    (hsym : r.symbol = toUpperJS s) :
    (beforeValidate (updatedRow r body)).userId = r.userId ∧
    (beforeValidate (updatedRow r body)).symbol = r.symbol ∧
    (beforeValidate (updatedRow r body)).id = r.id := by
  refine ⟨beforeValidate_userId _, ?_, beforeValidate_id _⟩
  have hup : toUpperJS (updatedRow r body).symbol = (updatedRow r body).symbol := by
    rw [updatedRow_symbol, hsym, toUpperJS_idem]
  rw [beforeValidate_symbol_of_upper _ hup, updatedRow_symbol]

/-- The created row of `findOrCreate` has the caller's id and the uppercased
symbol as its key fields. -/
theorem created_key_fields (uid newId now : Int) (s : String) (body : AddBody) :
    (beforeValidate (createdRow uid newId now (toUpperJS s) body)).userId = uid ∧
    (beforeValidate (createdRow uid newId now (toUpperJS s) body)).symbol = toUpperJS s := by
  constructor
  · exact beforeValidate_userId _
  · have hup : toUpperJS (createdRow uid newId now (toUpperJS s) body).symbol =
        (createdRow uid newId now (toUpperJS s) body).symbol := by
      show toUpperJS (toUpperJS s) = toUpperJS s
      exact toUpperJS_idem s
    exact beforeValidate_symbol_of_upper _ hup

/-! ## Claim about the (userId, symbol) uniqueness (C5) -/

/-- C5: the `(userId, symbol)` pair uniquely identifies a holding:
`POST /api/portfolio` uses `findOrCreate` on `(userId, toUpperCase(symbol))`,
so that when a matching row exists and the update passes validation the
response is 200 and the row count is unchanged (the row is updated in place,
no second row appears); when no row matches and the new row passes validation
the response is 201 and exactly the one new row is appended; and the unique
index `portfolio_user_symbol_unique` (the `uniqueUserSymbol` invariant) is
preserved by the handler in every case (given primary-key uniqueness). -/
theorem C5_findOrCreate_spec (db : List PortfolioRow) (uid newId now : Int)
    (body : AddBody) :
    (∀ r, jsTruthy body.symbol = true → body.quantity.isNone = false →
      db.find? (fun x => x.userId == uid && x.symbol == toUpperJS (body.symbol.getD "")) =
        some r →
      validPortfolioRow (beforeValidate (updatedRow r body)) = true →
      (postPortfolio db uid newId now body).1 =
        .ok 200 (beforeValidate (updatedRow r body)) ∧
      (postPortfolio db uid newId now body).2.length = db.length) ∧
    (jsTruthy body.symbol = true → body.quantity.isNone = false →
      db.find? (fun x => x.userId == uid && x.symbol == toUpperJS (body.symbol.getD "")) =
        none →
      validPortfolioRow (beforeValidate
        (createdRow uid newId now (toUpperJS (body.symbol.getD "")) body)) = true →
      (postPortfolio db uid newId now body).1 =
        .ok 201 (beforeValidate
          (createdRow uid newId now (toUpperJS (body.symbol.getD "")) body)) ∧
      (postPortfolio db uid newId now body).2 =
        db ++ [beforeValidate
          (createdRow uid newId now (toUpperJS (body.symbol.getD "")) body)]) ∧
    (uniqueUserSymbol db → uniqueIds db →
      uniqueUserSymbol (postPortfolio db uid newId now body).2) := by
  refine ⟨?_, ?_, ?_⟩
  · intro r hsym hq hfind hvalid
    constructor <;>
      simp [postPortfolio, hsym, hq, hfind, hvalid]
  · intro hsym hq hfind hvalid
    constructor <;>
      simp [postPortfolio, hsym, hq, hfind, hvalid]
  · intro hUS hIds
    by_cases hcond : (!(jsTruthy body.symbol) || body.quantity.isNone) = true
    · simpa [postPortfolio, hcond] using hUS
    · have hcond' : (!(jsTruthy body.symbol) || body.quantity.isNone) = false :=
        Bool.eq_false_iff.mpr hcond
      have hsym : jsTruthy body.symbol = true := by
        have h1 := (Bool.or_eq_false_iff.mp hcond').1
        simpa using h1
      have hq : body.quantity.isNone = false :=
        (Bool.or_eq_false_iff.mp hcond').2
      rcases hfind : db.find?
          (fun x => x.userId == uid && x.symbol == toUpperJS (body.symbol.getD "")) with _ | r
      · -- create path
        by_cases hvalid : validPortfolioRow (beforeValidate
            (createdRow uid newId now (toUpperJS (body.symbol.getD "")) body)) = true
        · have hres : (postPortfolio db uid newId now body).2 =
              db ++ [beforeValidate
                (createdRow uid newId now (toUpperJS (body.symbol.getD "")) body)] := by
            simp [postPortfolio, hsym, hq, hfind, hvalid]
          rw [hres]
          unfold uniqueUserSymbol at hUS ⊢
          rw [List.pairwise_append]
          refine ⟨hUS, List.pairwise_singleton _ _, ?_⟩
          intro a ha b hb
          have hb' : b = beforeValidate
              (createdRow uid newId now (toUpperJS (body.symbol.getD "")) body) := by
            simpa using hb
          have hkey := created_key_fields uid newId now (body.symbol.getD "") body
          have hnone := List.find?_eq_none.mp hfind a ha
          intro hcontra
          apply hnone
      -- a.userId == uid && a.symbol == toUpperJS ...
          rw [hb'] at hcontra
          rw [hkey.1, hkey.2] at hcontra
          simp [hcontra.1, hcontra.2]
        · have hres : (postPortfolio db uid newId now body).2 = db := by
            simp [postPortfolio, hsym, hq, hfind, hvalid]
          rw [hres]
          exact hUS
      · -- update path
        have hr_mem : r ∈ db := List.mem_of_find?_eq_some hfind
        have hr_pred := List.find?_some hfind
        have hr_sym : r.symbol = toUpperJS (body.symbol.getD "") := by
          have := (Bool.and_eq_true _ _).mp hr_pred
          exact eq_of_beq this.2
        have hkeep := updated_key_fields r body (body.symbol.getD "") hr_sym
        by_cases hvalid : validPortfolioRow (beforeValidate (updatedRow r body)) = true
        · have hres : (postPortfolio db uid newId now body).2 =
              db.map fun x => if x.id == r.id then beforeValidate (updatedRow r body)
                else x := by
            simp [postPortfolio, hsym, hq, hfind, hvalid]
          rw [hres]
          unfold uniqueUserSymbol at hUS ⊢
          rw [List.pairwise_map]
          have keyfix : ∀ x ∈ db,
              ((if x.id == r.id then beforeValidate (updatedRow r body) else x)).userId
                = x.userId ∧
              ((if x.id == r.id then beforeValidate (updatedRow r body) else x)).symbol
                = x.symbol := by
            intro x hx
            by_cases hxid : (x.id == r.id) = true
            · have hxr : x = r := eq_of_mem_uniqueIds hIds hx hr_mem (eq_of_beq hxid)
              rw [if_pos hxid, hxr]
              exact ⟨hkeep.1, hkeep.2.1⟩
            · rw [if_neg hxid]
              exact ⟨rfl, rfl⟩
          refine hUS.imp_of_mem ?_
          intro a b ha hb hab hcontra
          apply hab
          rw [← (keyfix a ha).1, ← (keyfix a ha).2, ← (keyfix b hb).1, ← (keyfix b hb).2]
          exact hcontra
        · have hres : (postPortfolio db uid newId now body).2 = db := by
            simp [postPortfolio, hsym, hq, hfind, hvalid]
          rw [hres]
          exact hUS

/-- C5 witness: adding `TCS` twice for the same user keeps a single row. -/
theorem C5_findOrCreate_spec_witness :
    (postPortfolio
      [{ id := 1, userId := 7, symbol := "TCS", quantity := 2,
         purchasePrice := none, purchaseDate := none, notes := none }]
      7 2 0 { symbol := some "TCS", quantity := some 5, purchasePrice := none,
              purchaseDate := none, notes := none }).2.length = 1 :=
  ((C5_findOrCreate_spec
      [{ id := 1, userId := 7, symbol := "TCS", quantity := 2,
         purchasePrice := none, purchaseDate := none, notes := none }]
      7 2 0 { symbol := some "TCS", quantity := some 5, purchasePrice := none,
              purchaseDate := none, notes := none }).1
    { id := 1, userId := 7, symbol := "TCS", quantity := 2,
      purchasePrice := none, purchaseDate := none, notes := none }
    (by decide) (by decide) (by decide) (by decide)).2

/-! ## Claim about declarative validation (C6) -/

/-- C6: declarative model validation keeps every persisted row within bounds:
a `findOrCreate` create or an update whose resulting Portfolio row fails the
validators (negative or non-integer quantity, negative purchasePrice, symbol
length outside 1..20) is rejected as 400 `Validation error` with the table
unchanged; both portfolio handlers preserve row validity of the whole table;
a signup whose (present) fields fail the User validators — name outside
2..100 characters, password shorter than 8 — is rejected as 400 with the
table unchanged; and a 201 signup can only happen when the validators hold. -/
theorem C6_validation_spec :
    (∀ (db : List PortfolioRow) (uid newId now : Int) (body : AddBody),
      jsTruthy body.symbol = true → body.quantity.isNone = false →
      db.find? (fun x => x.userId == uid && x.symbol == toUpperJS (body.symbol.getD "")) =
        none →
      validPortfolioRow (beforeValidate
        (createdRow uid newId now (toUpperJS (body.symbol.getD "")) body)) = false →
      postPortfolio db uid newId now body = (.error 400 "Validation error", db)) ∧
    (∀ (db : List PortfolioRow) (uid newId now : Int) (body : AddBody) (r : PortfolioRow),
      jsTruthy body.symbol = true → body.quantity.isNone = false →
      db.find? (fun x => x.userId == uid && x.symbol == toUpperJS (body.symbol.getD "")) =
        some r →
      validPortfolioRow (beforeValidate (updatedRow r body)) = false →
      postPortfolio db uid newId now body = (.error 400 "Validation error", db)) ∧
    (∀ (db : List PortfolioRow) (uid newId now : Int) (body : AddBody),
      (∀ r ∈ db, validPortfolioRow r = true) →
      ∀ r ∈ (postPortfolio db uid newId now body).2, validPortfolioRow r = true) ∧
    (∀ (db : List PortfolioRow) (uid : Int) (s : String),
      (∀ r ∈ db, validPortfolioRow r = true) →
      ∀ r ∈ (deletePortfolio db uid s).2, validPortfolioRow r = true) ∧
    (∀ (isEmail : String → Bool) (hash : String → String) (secret : String)
       (now newId : Int) (db : List UserRow) (name email password : Option String),
      jsTruthy name = true → jsTruthy email = true → jsTruthy password = true →
      validUserFields isEmail (name.getD "") (email.getD "") (password.getD "") = false →
      signup isEmail hash secret now newId db name email password =
        (.error 400 "Validation error", db)) ∧
    (∀ (isEmail : String → Bool) (hash : String → String) (secret : String)
       (now newId : Int) (db : List UserRow) (name email password : Option String)
       (z : SignedToken × PublicUser) (db' : List UserRow),
      signup isEmail hash secret now newId db name email password = (.ok 201 z, db') →
      validUserFields isEmail (name.getD "") (email.getD "") (password.getD "") = true) := by
  refine ⟨?_, ?_, ?_, ?_, ?_, ?_⟩
  · intro db uid newId now body hsym hq hfind hvalid
    simp [postPortfolio, hsym, hq, hfind, hvalid]
  · intro db uid newId now body r hsym hq hfind hvalid
    simp [postPortfolio, hsym, hq, hfind, hvalid]
  · intro db uid newId now body hall r hr
    by_cases hcond : (!(jsTruthy body.symbol) || body.quantity.isNone) = true
    · have hres : (postPortfolio db uid newId now body).2 = db := by
        simp [postPortfolio, hcond]
      rw [hres] at hr
      exact hall r hr
    · have hcond' : (!(jsTruthy body.symbol) || body.quantity.isNone) = false :=
        Bool.eq_false_iff.mpr hcond
      have hsym : jsTruthy body.symbol = true := by
        have h1 := (Bool.or_eq_false_iff.mp hcond').1
        simpa using h1
      have hq : body.quantity.isNone = false :=
        (Bool.or_eq_false_iff.mp hcond').2
      rcases hfind : db.find?
          (fun x => x.userId == uid && x.symbol == toUpperJS (body.symbol.getD "")) with _ | r0
      · by_cases hvalid : validPortfolioRow (beforeValidate
            (createdRow uid newId now (toUpperJS (body.symbol.getD "")) body)) = true
        · have hres : (postPortfolio db uid newId now body).2 =
              db ++ [beforeValidate
                (createdRow uid newId now (toUpperJS (body.symbol.getD "")) body)] := by
            simp [postPortfolio, hsym, hq, hfind, hvalid]
          rw [hres] at hr
          rcases List.mem_append.mp hr with h | h
          · exact hall r h
          · rw [List.mem_singleton.mp h]
            exact hvalid
        · have hres : (postPortfolio db uid newId now body).2 = db := by
            simp [postPortfolio, hsym, hq, hfind, hvalid]
          rw [hres] at hr
          exact hall r hr
      · by_cases hvalid : validPortfolioRow (beforeValidate (updatedRow r0 body)) = true
        · have hres : (postPortfolio db uid newId now body).2 =
              db.map fun x => if x.id == r0.id then beforeValidate (updatedRow r0 body)
                else x := by
            simp [postPortfolio, hsym, hq, hfind, hvalid]
          rw [hres] at hr
          rcases List.mem_map.mp hr with ⟨x, hx, hfx⟩
          by_cases hxid : (x.id == r0.id) = true
          · rw [if_pos hxid] at hfx
            rw [← hfx]
            exact hvalid
          · rw [if_neg hxid] at hfx
            rw [← hfx]
            exact hall x hx
        · have hres : (postPortfolio db uid newId now body).2 = db := by
            simp [postPortfolio, hsym, hq, hfind, hvalid]
          rw [hres] at hr
          exact hall r hr
  · intro db uid s hall r hr
    unfold deletePortfolio at hr
    by_cases hs : (s == "") = true
    · rw [if_pos hs] at hr
      exact hall r hr
    · rw [if_neg hs] at hr
      by_cases hlen : ((db.filter fun x =>
          !(x.userId == uid && x.symbol == toUpperJS s)).length == db.length) = true
      · rw [if_pos hlen] at hr
        exact hall r hr
      · rw [if_neg hlen] at hr
        exact hall r (List.mem_of_mem_filter hr)
  · intro isEmail hash secret now newId db name email password hn he hp hvalid
    simp [signup, hn, he, hp, hvalid]
  · intro isEmail hash secret now newId db name email password z db' hres
    by_cases hmiss : (!(jsTruthy name) || !(jsTruthy email) || !(jsTruthy password)) = true
    · rw [signup, if_pos hmiss] at hres
      cases hres
    · by_cases hvalid : validUserFields isEmail (name.getD "") (email.getD "")
          (password.getD "") = true
      · exact hvalid
      · exfalso
        rw [signup, if_neg hmiss] at hres
        rw [Bool.not_eq_true] at hvalid
        simp only [hvalid, Bool.not_false, if_true] at hres
        cases hres

/-- C6 witness: adding a holding with a negative quantity is rejected. -/
theorem C6_validation_spec_witness :
    postPortfolio [] 7 1 0
      { symbol := some "TCS", quantity := some (-1), purchasePrice := none,
        purchaseDate := none, notes := none } =
      (.error 400 "Validation error", []) :=
  C6_validation_spec.1 [] 7 1 0
    { symbol := some "TCS", quantity := some (-1), purchasePrice := none,
      purchaseDate := none, notes := none }
    (by decide) (by decide) (by decide) (by decide)

/-! ## Claim about symbol case normalization (C10) -/

/-- C10: portfolio symbols are uppercase-normalized at every boundary: both
portfolio handlers preserve the invariant that every stored symbol equals its
own uppercase form (the `beforeValidate` hook uppercases before any save),
and both handlers are case-insensitive in the incoming symbol — the add and
delete handlers behave identically on `s` and on `s.toUpperCase()`. -/
theorem C10_symbol_normalization_spec :
    (∀ (db : List PortfolioRow) (uid newId now : Int) (body : AddBody),
      (∀ r ∈ db, r.symbol = toUpperJS r.symbol) →
      ∀ r ∈ (postPortfolio db uid newId now body).2, r.symbol = toUpperJS r.symbol) ∧
    (∀ (db : List PortfolioRow) (uid : Int) (s : String),
      (∀ r ∈ db, r.symbol = toUpperJS r.symbol) →
      ∀ r ∈ (deletePortfolio db uid s).2, r.symbol = toUpperJS r.symbol) ∧
    (∀ (db : List PortfolioRow) (uid newId now : Int) (body : AddBody) (s : String),
      postPortfolio db uid newId now { body with symbol := some s } =
        postPortfolio db uid newId now { body with symbol := some (toUpperJS s) }) ∧
    (∀ (db : List PortfolioRow) (uid : Int) (s : String),
      deletePortfolio db uid s = deletePortfolio db uid (toUpperJS s)) := by
  refine ⟨?_, ?_, ?_, ?_⟩
  · intro db uid newId now body hall r hr
    by_cases hcond : (!(jsTruthy body.symbol) || body.quantity.isNone) = true
    · have hres : (postPortfolio db uid newId now body).2 = db := by
        simp [postPortfolio, hcond]
      rw [hres] at hr
      exact hall r hr
    · have hcond' : (!(jsTruthy body.symbol) || body.quantity.isNone) = false :=
        Bool.eq_false_iff.mpr hcond
      have hsym : jsTruthy body.symbol = true := by
        have h1 := (Bool.or_eq_false_iff.mp hcond').1
        simpa using h1
      have hq : body.quantity.isNone = false :=
        (Bool.or_eq_false_iff.mp hcond').2
      rcases hfind : db.find?
          (fun x => x.userId == uid && x.symbol == toUpperJS (body.symbol.getD "")) with _ | r0
      · by_cases hvalid : validPortfolioRow (beforeValidate
            (createdRow uid newId now (toUpperJS (body.symbol.getD "")) body)) = true
        · have hres : (postPortfolio db uid newId now body).2 =
              db ++ [beforeValidate
                (createdRow uid newId now (toUpperJS (body.symbol.getD "")) body)] := by
            simp [postPortfolio, hsym, hq, hfind, hvalid]
          rw [hres] at hr
          rcases List.mem_append.mp hr with h | h
          · exact hall r h
          · rw [List.mem_singleton.mp h]
            rw [(created_key_fields uid newId now (body.symbol.getD "") body).2,
              toUpperJS_idem]
        · have hres : (postPortfolio db uid newId now body).2 = db := by
            simp [postPortfolio, hsym, hq, hfind, hvalid]
          rw [hres] at hr
          exact hall r hr
      · have hr_pred := List.find?_some hfind
        have hr_sym : r0.symbol = toUpperJS (body.symbol.getD "") := by
          have := (Bool.and_eq_true _ _).mp hr_pred
          exact eq_of_beq this.2
        have hkeep := updated_key_fields r0 body (body.symbol.getD "") hr_sym
        by_cases hvalid : validPortfolioRow (beforeValidate (updatedRow r0 body)) = true
        · have hres : (postPortfolio db uid newId now body).2 =
              db.map fun x => if x.id == r0.id then beforeValidate (updatedRow r0 body)
                else x := by
            simp [postPortfolio, hsym, hq, hfind, hvalid]
          rw [hres] at hr
          rcases List.mem_map.mp hr with ⟨x, hx, hfx⟩
          by_cases hxid : (x.id == r0.id) = true
          · rw [if_pos hxid] at hfx
            rw [← hfx, hkeep.2.1, hr_sym, toUpperJS_idem]
          · rw [if_neg hxid] at hfx
            rw [← hfx]
            exact hall x hx
        · have hres : (postPortfolio db uid newId now body).2 = db := by
            simp [postPortfolio, hsym, hq, hfind, hvalid]
          rw [hres] at hr
          exact hall r hr
  · intro db uid s hall r hr
    unfold deletePortfolio at hr
    by_cases hs : (s == "") = true
    · rw [if_pos hs] at hr
      exact hall r hr
    · rw [if_neg hs] at hr
      by_cases hlen : ((db.filter fun x =>
          !(x.userId == uid && x.symbol == toUpperJS s)).length == db.length) = true
      · rw [if_pos hlen] at hr
        exact hall r hr
      · rw [if_neg hlen] at hr
        exact hall r (List.mem_of_mem_filter hr)
  · intro db uid newId now body s
    have htruthy : jsTruthy (some (toUpperJS s)) = jsTruthy (some s) := by
      by_cases h : s = ""
      · subst h
        rfl
      · simp [jsTruthy, h, toUpperJS_ne_empty h]
    simp [postPortfolio, createdRow, updatedRow, htruthy, toUpperJS_idem]
  · intro db uid s
    have hbeq : (toUpperJS s == "") = (s == "") := by
      by_cases h : s = ""
      · subst h
        rfl
      · simp [h, toUpperJS_ne_empty h]
    simp [deletePortfolio, hbeq, toUpperJS_idem]

/-- C10 witness: adding lowercase `tcs` behaves as adding `TCS`, and the row
updated through the lowercase request is stored uppercase. -/
theorem C10_symbol_normalization_spec_witness :
    postPortfolio [] 7 1 0
      { symbol := some "tcs", quantity := some 2, purchasePrice := none,
        purchaseDate := none, notes := none } =
      postPortfolio [] 7 1 0
        { symbol := some (toUpperJS "tcs"), quantity := some 2, purchasePrice := none,
          purchaseDate := none, notes := none } ∧
    ("TCS" : String) = toUpperJS "TCS" := by
  constructor
  · exact C10_symbol_normalization_spec.2.2.1 [] 7 1 0
      { symbol := none, quantity := some 2, purchasePrice := none,
        purchaseDate := none, notes := none } "tcs"
  · exact C10_symbol_normalization_spec.1
      [{ id := 1, userId := 7, symbol := "TCS", quantity := 2, purchasePrice := none,
         purchaseDate := none, notes := none }] 7 9 0
      { symbol := some "tcs", quantity := some 5, purchasePrice := none,
        purchaseDate := none, notes := none } (by decide)
      { id := 1, userId := 7, symbol := "TCS", quantity := 5, purchasePrice := none,
        purchaseDate := none, notes := none } (by decide)

/-! ## Claim about credential secrecy (C9) -/

/-- Agreement of two user rows on every field that `toJSON` keeps (all fields
except `password`, `passwordResetToken`, `passwordResetExpires`). -/
def nonSecretEq (u v : UserRow) : Prop :=
  u.id = v.id ∧ u.name = v.name ∧ u.email = v.email ∧ u.role = v.role ∧
  u.lastLogin = v.lastLogin

/-- Related tables produce related `find?` results when the relation decides
the search predicate. -/
theorem forall₂_find?_rel {α : Type} (R : α → α → Prop) (p q : α → Bool)
    (hpq : ∀ u v, R u v → p u = q v) :
    ∀ {l1 l2 : List α}, List.Forall₂ R l1 l2 →
      (l1.find? p = none ∧ l2.find? q = none) ∨
      (∃ u v, l1.find? p = some u ∧ l2.find? q = some v ∧ R u v) := by
  intro l1 l2 h
  induction h with
  | nil => exact Or.inl ⟨rfl, rfl⟩
  | @cons a b l1' l2' hab htail ih =>
    by_cases hp : p a = true
    · have hq : q b = true := (hpq a b hab) ▸ hp
      exact Or.inr ⟨a, b, by simp [List.find?_cons, hp], by simp [List.find?_cons, hq], hab⟩
    · have hq : q b = false := by
        rw [← hpq a b hab]
        exact Bool.eq_false_iff.mpr hp
      have hp' : p a = false := Bool.eq_false_iff.mpr hp
      rcases ih with ⟨h1, h2⟩ | ⟨u, v, h1, h2, huv⟩
      · exact Or.inl ⟨by simp [List.find?_cons, hp', h1], by simp [List.find?_cons, hq, h2]⟩
      · exact Or.inr ⟨u, v, by simp [List.find?_cons, hp', h1], by simp [List.find?_cons, hq, h2], huv⟩

/-- C9 counterexample: the claim is too strong for login.  Two user records
that differ only in the stored password hash (their `toJSON` views coincide)
produce different login bodies for the same request, because the stored hash
decides the password comparison: one gets the 200 token body, the other the
401 error body. -/
theorem C9_secrets_counterexample :
    ({ id := 1, name := "Alice", email := "a@x.com", password := "pw12345678",
       role := "user", lastLogin := none, passwordResetToken := none,
       passwordResetExpires := none } : UserRow).toJSON =
      ({ id := 1, name := "Alice", email := "a@x.com", password := "different11",
         role := "user", lastLogin := none, passwordResetToken := none,
         passwordResetExpires := none } : UserRow).toJSON ∧
    (login (fun a b => a == b) "secret" 0
        [{ id := 1, name := "Alice", email := "a@x.com", password := "pw12345678",
           role := "user", lastLogin := none, passwordResetToken := none,
           passwordResetExpires := none }] (some "a@x.com") (some "pw12345678")).1 ≠
      (login (fun a b => a == b) "secret" 0
          [{ id := 1, name := "Alice", email := "a@x.com", password := "different11",
             role := "user", lastLogin := none, passwordResetToken := none,
             passwordResetExpires := none }] (some "a@x.com") (some "pw12345678")).1 := by
  decide

/-- Shape of the login response when the email lookup succeeds. -/
theorem login_response_of_find (compare : String → String → Bool) (secret : String)
    (now : Int) (db : List UserRow) (e p : String)
    (he : (e == "") = false) (hp : (p == "") = false) (u : UserRow)
    (hfind : db.find? (fun x => x.email == e) = some u) :
    (login compare secret now db (some e) (some p)).1 =
      if compare p u.password then
        .ok 200 (jwtSign { id := u.id, email := u.email, role := u.role } secret now,
                 ({ u with lastLogin := some now } : UserRow).toJSON)
      else .error 401 "Invalid credentials" := by
  simp only [login, jsTruthy, he, hp, Bool.not_false, Bool.or_self,
    Bool.false_eq_true, if_false, Option.getD_some, hfind, UserRow.validPassword]
  by_cases hc : compare p u.password = true
  · simp [hc]
  · have hc' : compare p u.password = false := Bool.eq_false_iff.mpr hc
    simp [hc']

/-- Shape of the login response when the email lookup fails. -/
theorem login_response_of_none (compare : String → String → Bool) (secret : String)
    (now : Int) (db : List UserRow) (e p : String)
    (he : (e == "") = false) (hp : (p == "") = false)
    (hfind : db.find? (fun x => x.email == e) = none) :
    (login compare secret now db (some e) (some p)).1 =
      .error 401 "Invalid credentials" := by
  simp [login, jsTruthy, he, hp, hfind]

/-- C9 (amended): no API response body ever contains the credential secrets:
`toJSON` is invariant under the secret fields; profile bodies agree for
tables agreeing on the non-secret fields; login bodies agree for such tables
whenever the password comparison additionally returns the same result (the
comparison outcome — not the hash value — is all that login reveals); and a
successful signup body does not depend on which (valid) password was sent. -/
theorem C9_secrets_spec :
    (∀ u v : UserRow, nonSecretEq u v → u.toJSON = v.toJSON) ∧
    (∀ (db1 db2 : List UserRow) (uid : Int), List.Forall₂ nonSecretEq db1 db2 →
      getProfile db1 uid = getProfile db2 uid) ∧
    (∀ (compare : String → String → Bool) (secret : String) (now : Int)
       (db1 db2 : List UserRow) (e p : String),
      List.Forall₂ (fun u v => nonSecretEq u v ∧
        compare p u.password = compare p v.password) db1 db2 →
      (login compare secret now db1 (some e) (some p)).1 =
        (login compare secret now db2 (some e) (some p)).1) ∧
    (∀ (isEmail : String → Bool) (hash : String → String) (secret : String)
       (now newId : Int) (db : List UserRow) (name email : Option String)
       (p1 p2 : String),
      validPasswordField p1 = true → validPasswordField p2 = true →
      (signup isEmail hash secret now newId db name email (some p1)).1 =
        (signup isEmail hash secret now newId db name email (some p2)).1) := by
  have toJSON_eq : ∀ u v : UserRow, nonSecretEq u v → u.toJSON = v.toJSON := by
    intro u v h
    rcases h with ⟨h1, h2, h3, h4, h5⟩
    unfold UserRow.toJSON
    rw [h1, h2, h3, h4, h5]
  refine ⟨toJSON_eq, ?_, ?_, ?_⟩
  · intro db1 db2 uid h
    rcases forall₂_find?_rel nonSecretEq (fun u => u.id == uid) (fun u => u.id == uid)
        (fun u v huv => by simp only [huv.1]) h with ⟨h1, h2⟩ | ⟨u, v, h1, h2, huv⟩
    · simp [getProfile, h1, h2]
    · simp only [getProfile, h1, h2]
      rw [toJSON_eq u v huv]
  · intro compare secret now db1 db2 e p h
    by_cases he : (e == "") = true
    · simp [login, jsTruthy, he]
    · have he' : (e == "") = false := Bool.eq_false_iff.mpr he
      by_cases hp : (p == "") = true
      · simp [login, jsTruthy, he', hp]
      · have hp' : (p == "") = false := Bool.eq_false_iff.mpr hp
        rcases forall₂_find?_rel _ (fun u => u.email == e) (fun u => u.email == e)
            (fun u v huv => by simp only [huv.1.2.2.1]) h with ⟨h1, h2⟩ | ⟨u, v, h1, h2, huv⟩
        · rw [login_response_of_none compare secret now db1 e p he' hp' h1,
            login_response_of_none compare secret now db2 e p he' hp' h2]
        · rcases huv with ⟨hns, hcmp⟩
          rw [login_response_of_find compare secret now db1 e p he' hp' u h1,
            login_response_of_find compare secret now db2 e p he' hp' v h2, ← hcmp]
          by_cases hc : compare p u.password = true
          · rw [if_pos hc, if_pos hc]
            have hj : ({ u with lastLogin := some now } : UserRow).toJSON =
                ({ v with lastLogin := some now } : UserRow).toJSON :=
              toJSON_eq _ _ ⟨hns.1, hns.2.1, hns.2.2.1, hns.2.2.2.1, rfl⟩
            rw [hj, hns.1, hns.2.2.1, hns.2.2.2.1]
          · have hc' : compare p u.password = false := Bool.eq_false_iff.mpr hc
            rw [if_neg hc, if_neg hc]
  · intro isEmail hash secret now newId db name email p1 p2 hv1 hv2
    have hp1 : (p1 == "") = false := by
      have := ((Bool.and_eq_true _ _).mp ((Bool.and_eq_true _ _).mp hv1).1).1
      simpa using this
    have hp2 : (p2 == "") = false := by
      have := ((Bool.and_eq_true _ _).mp ((Bool.and_eq_true _ _).mp hv2).1).1
      simpa using this
    by_cases hn : jsTruthy name = false
    · simp [signup, hn]
    · have hn' : jsTruthy name = true := Bool.eq_false_iff.not_left.mp hn
      by_cases hm : jsTruthy email = false
      · simp [signup, hn', hm]
      · have hm' : jsTruthy email = true := Bool.eq_false_iff.not_left.mp hm
        simp only [signup, jsTruthy, hn', hm', hp1, hp2, Bool.not_false, Bool.not_true,
          Bool.or_self, Bool.or_false, Bool.false_eq_true, if_false, Option.getD_some,
          validUserFields, hv1, hv2, Bool.and_true]
        split
        · rfl
        · split
          · rfl
          · split
            · rfl
            · rfl

/-- C9 witness: two different valid passwords give the same signup body. -/
theorem C9_secrets_spec_witness :
    (signup (fun _ => true) (fun s => s) "secret" 0 1 []
        (some "Alice") (some "a@x.com") (some "pw12345678")).1 =
      (signup (fun _ => true) (fun s => s) "secret" 0 1 []
        (some "Alice") (some "a@x.com") (some "different11")).1 :=
  C9_secrets_spec.2.2.2 (fun _ => true) (fun s => s) "secret" 0 1 []
    (some "Alice") (some "a@x.com") "pw12345678" "different11" (by decide) (by decide)

/-! ## Support lemmas for the news pipeline -/

/-- Strategy 1 is always attempted: the collection phase issues at least one
request. -/
theorem collectArticles_requests_pos (env : NewsEnv) : 1 ≤ (collectArticles env).2 := by
  unfold collectArticles
  repeat' split
  all_goals try simp
  all_goals repeat' split
  all_goals try simp
  all_goals omega

/-- With a configured key, the fresh path issues exactly the collection-phase
requests. -/
theorem fetchNewsFresh_requests (env : NewsEnv) (mem : Option NewsCacheEntry)
    (now : Int) (hkey : jsTruthy env.apiKey = true) :
    (fetchNewsFresh env mem now).requests = (collectArticles env).2 := by
  unfold fetchNewsFresh
  rw [hkey]
  simp only [Bool.not_true, Bool.false_eq_true, if_false]
  rcases hc : collectArticles env with ⟨a, n⟩
  rcases a with _ | arts
  · rfl
  · simp only []
    split
    · rfl
    · rfl

/-- The fresh path either leaves the cache alone or stores a nonempty fresh
result stamped `now`, which is also what it returns. -/
theorem fetchNewsFresh_cache_write (env : NewsEnv) (mem : Option NewsCacheEntry)
    (now : Int) :
    (fetchNewsFresh env mem now).newCache = mem ∨
    ∃ l, l ≠ [] ∧ (fetchNewsFresh env mem now).newCache = some ⟨l, now⟩ ∧
      (fetchNewsFresh env mem now).result = l := by
  unfold fetchNewsFresh
  split
  · exact Or.inl rfl
  · rcases hc : collectArticles env with ⟨a, n⟩
    rcases a with _ | arts
    · exact Or.inl rfl
    · simp only []
      split
      · exact Or.inl rfl
      · next hne =>
        refine Or.inr ⟨_, ?_, rfl, rfl⟩
        intro hnil
        apply hne
        rw [hnil]
        rfl

/-- The fresh path returns the fallback list whenever the collection phase
throws to the outer catch. -/
theorem fetchNewsFresh_fallback_of_none (env : NewsEnv) (mem : Option NewsCacheEntry)
    (now : Int) (hcoll : (collectArticles env).1 = none) :
    (fetchNewsFresh env mem now).result = getFallbackNews now := by
  unfold fetchNewsFresh
  split
  · rfl
  · rcases hc : collectArticles env with ⟨a, n⟩
    rcases a with _ | arts
    · rfl
    · rw [hc] at hcoll
      cases hcoll

/-- A stale or absent memory cache routes `fetchNews` to the fresh path. -/
theorem fetchNews_of_stale (env : NewsEnv) (mem : Option NewsCacheEntry) (now : Int)
    (hfresh : cacheFresh mem now = false) :
    fetchNews env mem now = fetchNewsFresh env mem now := by
  rcases mem with _ | c
  · rfl
  · have hlt : ¬(now - c.timestamp < CACHE_DURATION) := by
      simpa [cacheFresh] using hfresh
    simp [fetchNews, hlt]

/-- The collection phase yields no articles when every provider request
answers with an empty `data` array. -/
theorem collectArticles_empty (env : NewsEnv) (hg : env.globalFetch = .ok [])
    (hi : env.indiaFetch = .ok []) (hk : ∀ k, env.keywordFetch k = .ok []) :
    (collectArticles env).1 = some [] := by
  unfold collectArticles
  rw [hg, hi]
  simp [strategy3Keywords, runKeywords, hk, dedupAgainst]

/-- The fresh path returns the fallback list when the collection phase yields
zero articles. -/
theorem fetchNewsFresh_fallback_of_empty (env : NewsEnv) (mem : Option NewsCacheEntry)
    (now : Int) (hcoll : (collectArticles env).1 = some []) :
    (fetchNewsFresh env mem now).result = getFallbackNews now := by
  unfold fetchNewsFresh
  split
  · rfl
  · rcases hc : collectArticles env with ⟨a, n⟩
    rcases a with _ | arts
    · rfl
    · rw [hc] at hcoll
      have harts : arts = [] := by simpa using hcoll
      subst harts
      simp [dedupByUuid, buildFinalNews, sortNews]

/-! ## Claims about fallback data and the news cache (C4, C8) -/

/-- C4: third-party failures fall back to locally generated placeholder data:
`fetchStockDataForBackend` returns `getFallbackStockData` on every input (in
particular when the API key is absent) and, being total, never throws; with
no fresh cache, `fetchNews` returns the `getFallbackNews` list whenever the
collection phase throws to the outer catch — which a network error of the
news-provider request causes — and likewise whenever the provider requests
yield zero articles; being total, it never fails the enclosing request. -/
theorem C4_fallback_spec :
    (∀ (apiKey : Option String) (r1 r2 : Rat) (symbol : String),
      fetchStockDataForBackend apiKey r1 r2 symbol = getFallbackStockData r1 r2 symbol) ∧
    (∀ (env : NewsEnv) (mem : Option NewsCacheEntry) (now : Int),
      cacheFresh mem now = false → (collectArticles env).1 = none →
      (fetchNews env mem now).result = getFallbackNews now) ∧
    (∀ env : NewsEnv, env.globalFetch = .netError → (collectArticles env).1 = none) ∧
    (∀ (env : NewsEnv) (mem : Option NewsCacheEntry) (now : Int),
      cacheFresh mem now = false →
      env.globalFetch = .ok [] → env.indiaFetch = .ok [] →
      (∀ k, env.keywordFetch k = .ok []) →
      (fetchNews env mem now).result = getFallbackNews now) := by
  refine ⟨?_, ?_, ?_, ?_⟩
  · intro apiKey r1 r2 symbol
    unfold fetchStockDataForBackend
    split <;> rfl
  · intro env mem now hfresh hcoll
    rw [fetchNews_of_stale env mem now hfresh]
    exact fetchNewsFresh_fallback_of_none env mem now hcoll
  · intro env hg
    unfold collectArticles
    rw [hg]
  · intro env mem now hfresh hg hi hk
    rw [fetchNews_of_stale env mem now hfresh]
    exact fetchNewsFresh_fallback_of_empty env mem now (collectArticles_empty env hg hi hk)

/-- C4 witness: with a stale cache and a failing provider, the fallback list
is returned. -/
theorem C4_fallback_spec_witness :
    (fetchNews { apiKey := some "key", globalFetch := FetchOutcome.netError,
                 indiaFetch := FetchOutcome.netError,
                 keywordFetch := fun _ => FetchOutcome.netError } none 0).result =
      getFallbackNews 0 :=
  C4_fallback_spec.2.1
    { apiKey := some "key", globalFetch := FetchOutcome.netError,
      indiaFetch := FetchOutcome.netError,
      keywordFetch := fun _ => FetchOutcome.netError } none 0 rfl
    (C4_fallback_spec.2.2.1
      { apiKey := some "key", globalFetch := FetchOutcome.netError,
        indiaFetch := FetchOutcome.netError,
        keywordFetch := fun _ => FetchOutcome.netError } rfl)

/-- C8: the news cache is a pure time-to-live check: while the memory entry
is younger than the 20-minute `CACHE_DURATION`, `fetchNews` returns the
cached list, issues no provider request and leaves the cache unchanged; with
a stale or absent entry and a configured key, at least one provider request
is issued; `getCachedNews` returns the memory entry under the same age
condition, else a fresh localStorage entry, else the empty list; and the
only cache write `fetchNews` ever performs is storing a nonempty fresh
result stamped with the current time — no other eviction occurs. -/
theorem C8_cache_ttl_spec :
    (∀ (env : NewsEnv) (c : NewsCacheEntry) (now : Int),
      now - c.timestamp < CACHE_DURATION →
      fetchNews env (some c) now =
        { result := c.data, newCache := some c, requests := 0 }) ∧
    (∀ (env : NewsEnv) (mem : Option NewsCacheEntry) (now : Int),
      cacheFresh mem now = false → jsTruthy env.apiKey = true →
      1 ≤ (fetchNews env mem now).requests) ∧
    (∀ (c : NewsCacheEntry) (ls : Option NewsCacheEntry) (now : Int),
      now - c.timestamp < CACHE_DURATION →
      getCachedNews (some c) ls now = (c.data, some c)) ∧
    (∀ (mem : Option NewsCacheEntry) (l : NewsCacheEntry) (now : Int),
      cacheFresh mem now = false → now - l.timestamp < CACHE_DURATION →
      getCachedNews mem (some l) now = (l.data, some l)) ∧
    (∀ (mem ls : Option NewsCacheEntry) (now : Int),
      cacheFresh mem now = false → cacheFresh ls now = false →
      getCachedNews mem ls now = ([], mem)) ∧
    (∀ (env : NewsEnv) (mem : Option NewsCacheEntry) (now : Int),
      (fetchNews env mem now).newCache = mem ∨
      ∃ l, l ≠ [] ∧ (fetchNews env mem now).newCache = some ⟨l, now⟩ ∧
        (fetchNews env mem now).result = l) := by
  refine ⟨?_, ?_, ?_, ?_, ?_, ?_⟩
  · intro env c now h
    simp [fetchNews, h]
  · intro env mem now hfresh hkey
    rw [fetchNews_of_stale env mem now hfresh, fetchNewsFresh_requests env mem now hkey]
    exact collectArticles_requests_pos env
  · intro c ls now h
    simp [getCachedNews, h]
  · intro mem l now hfresh h
    rcases mem with _ | c
    · simp [getCachedNews, h]
    · have hlt : ¬(now - c.timestamp < CACHE_DURATION) := by
        simpa [cacheFresh] using hfresh
      simp [getCachedNews, hlt, h]
  · intro mem ls now hm hl
    rcases mem with _ | c <;> rcases ls with _ | l
    · simp [getCachedNews]
    · have hlt : ¬(now - l.timestamp < CACHE_DURATION) := by
        simpa [cacheFresh] using hl
      simp [getCachedNews, hlt]
    · have hlt : ¬(now - c.timestamp < CACHE_DURATION) := by
        simpa [cacheFresh] using hm
      simp [getCachedNews, hlt]
    · have hltc : ¬(now - c.timestamp < CACHE_DURATION) := by
        simpa [cacheFresh] using hm
      have hltl : ¬(now - l.timestamp < CACHE_DURATION) := by
        simpa [cacheFresh] using hl
      simp [getCachedNews, hltc, hltl]
  · intro env mem now
    by_cases hfresh : cacheFresh mem now = true
    · left
      rcases mem with _ | c
      · simp [cacheFresh] at hfresh
      · have hlt : now - c.timestamp < CACHE_DURATION := by
          simpa [cacheFresh] using hfresh
        simp [fetchNews, hlt]
    · have hfresh' : cacheFresh mem now = false := Bool.eq_false_iff.mpr hfresh
      rw [fetchNews_of_stale env mem now hfresh']
      exact fetchNewsFresh_cache_write env mem now

/-- C8 witness: a 5 ms old cache entry is served without any request. -/
theorem C8_cache_ttl_spec_witness :
    fetchNews { apiKey := some "key", globalFetch := FetchOutcome.netError,
                indiaFetch := FetchOutcome.netError,
                keywordFetch := fun _ => FetchOutcome.netError }
        (some { data := [], timestamp := 5 }) 10 =
      { result := [], newCache := some { data := [], timestamp := 5 }, requests := 0 } :=
  C8_cache_ttl_spec.1
    { apiKey := some "key", globalFetch := FetchOutcome.netError,
      indiaFetch := FetchOutcome.netError,
      keywordFetch := fun _ => FetchOutcome.netError }
    { data := [], timestamp := 5 } 10 (by decide)
